import Mathlib

/-!
Verification development for the Goat Color Toolbox color engine
(src/GoatColorToolbox.js).  JavaScript numbers are modelled as exact
rationals; the JavaScript value NaN is modelled by the type
JNum := Option Rat with none standing for NaN (JavaScript arithmetic and
comparisons on NaN are propagated and false respectively, which the
combinators below reproduce).  The transcendental library functions
(Math.pow with a fractional exponent, Math.cbrt, Math.sqrt, Math.atan2,
Math.cos, Math.sin and the constant Math.PI) are taken as parameters in a
structure MathOps: every theorem that depends on a code path through one
of them quantifies over the parameter, and the paths evaluated on concrete
inputs never consult it.
-/

namespace GoatColor

set_option maxRecDepth 100000

set_option maxHeartbeats 2000000

/-- JavaScript number: none models NaN. -/
abbrev JNum := Option ℚ

/-- Lift a binary rational operation to JNum; NaN is absorbing, as for
JavaScript arithmetic. -/
def jbin (f : ℚ → ℚ → ℚ) : JNum → JNum → JNum
  | some x, some y => some (f x y)
  | _, _ => none

def jadd : JNum → JNum → JNum := jbin (· + ·)

def jsub : JNum → JNum → JNum := jbin (· - ·)

def jmul : JNum → JNum → JNum := jbin (· * ·)

def jdiv : JNum → JNum → JNum := jbin (· / ·)

def jmax : JNum → JNum → JNum := jbin max

def jmin : JNum → JNum → JNum := jbin min

/-- JavaScript comparison x < y: false when either side is NaN. -/
def jltB : JNum → JNum → Bool
  | some x, some y => x < y
  | _, _ => false

/-- JavaScript comparison x > y: false when either side is NaN. -/
def jgtB : JNum → JNum → Bool
  | some x, some y => y < x
  | _, _ => false

/-- JavaScript strict equality on numbers: false when either side is NaN. -/
def jeqB : JNum → JNum → Bool
  | some x, some y => x = y
  | _, _ => false

/-- JavaScript strict inequality on numbers: NaN !== y is true. -/
def jneB (x y : JNum) : Bool := !(jeqB x y)

def jabs : JNum → JNum := Option.map (fun q => |q|)

/-- Source function clamp(value, min, max) = Math.max(min, Math.min(value, max)).
Math.min and Math.max return NaN when an argument is NaN. -/
def clamp (value : JNum) (lo hi : ℚ) : JNum :=
  value.map (fun q => max lo (min q hi))

/-- Rational version of clamp for the many call sites whose argument is a
known-real number. -/
def clampQ (value lo hi : ℚ) : ℚ := max lo (min value hi)

/-- Math.round: round half toward positive infinity (JavaScript semantics,
which the floor of x + 1/2 reproduces for every real x). -/
def jsRound (q : ℚ) : ℚ := ⌊q + 1/2⌋

/-- Source function round(value, decimals), the
Number(Math.round(num+"e"+d)+"e-"+d) construction: in exact arithmetic it
rounds to d decimal places (half toward positive infinity); NaN input is
returned unchanged. -/
def round (value : JNum) (decimals : ℕ) : JNum :=
  value.map (fun q => jsRound (q * 10 ^ decimals) / 10 ^ decimals)

/-- Number.prototype.toFixed(4) as used on the nonnegative bisection
midpoint in getMaxSRGBChroma, composed with the parseFloat that reads the
formatted string back: rounding to 4 decimal places. -/
def toFixed4 (q : ℚ) : ℚ := jsRound (q * 10 ^ (4 : ℕ)) / 10 ^ (4 : ℕ)

/-- Truncation toward zero. -/
def jsTrunc (q : ℚ) : ℤ := if q < 0 then ⌈q⌉ else ⌊q⌋

/-- JavaScript remainder a % b: sign of the dividend (truncated division). -/
def jsMod (a b : ℚ) : ℚ := a - b * jsTrunc (a / b)

/-! String primitives with JavaScript semantics. -/

/-- The white-space set of the regular-expression class backslash-s, which is
also the set trimmed by String.prototype.trim and skipped by parseFloat. -/
def isJsSpace (c : Char) : Bool :=
  c = ' ' || c = '\t' || c = '\n' || c = '\x0b' || c = '\x0c' || c = '\r' ||
  c = ' ' || c = ' ' || (' ' ≤ c && c ≤ ' ') ||
  c = ' ' || c = ' ' || c = ' ' || c = ' ' ||
  c = '　' || c = '﻿'

def trimLeftL (l : List Char) : List Char := l.dropWhile isJsSpace

def jsTrimL (l : List Char) : List Char :=
  (trimLeftL ((trimLeftL l.reverse).reverse))

/-- String.prototype.trim. -/
def jsTrim (s : String) : String := String.mk (jsTrimL s.data)

/-- String.prototype.toLowerCase restricted to ASCII, which is the only part
of it the color strings and the named-color table exercise. -/
def jsLowerChar (c : Char) : Char :=
  if 'A' ≤ c ∧ c ≤ 'Z' then Char.ofNat (c.toNat + 32) else c

def jsToLower (s : String) : String := String.mk (s.data.map jsLowerChar)

def isDigitCh (c : Char) : Bool := '0' ≤ c && c ≤ '9'

def isHexDigitCI (c : Char) : Bool :=
  isDigitCh c || ('a' ≤ c && c ≤ 'f') || ('A' ≤ c && c ≤ 'F')

/-- Character class of the numeric component groups: plus, minus, digit,
dot, percent. -/
def isClsNum (c : Char) : Bool :=
  c = '+' || c = '-' || isDigitCh c || c = '.' || c = '%'

/-- Character class of the hue component group (with the ignore-case flag):
the numeric class extended by letters and the degree sign. -/
def isClsHue (c : Char) : Bool :=
  isClsNum c || ('a' ≤ c && c ≤ 'z') || ('A' ≤ c && c ≤ 'Z') || c = '°'

def digitVal (c : Char) : ℕ := c.toNat - '0'.toNat

def hexDigitVal (c : Char) : ℕ :=
  if isDigitCh c then digitVal c
  else if 'a' ≤ c ∧ c ≤ 'f' then c.toNat - 'a'.toNat + 10
  else if 'A' ≤ c ∧ c ≤ 'F' then c.toNat - 'A'.toNat + 10
  else 0

/-- parseInt(str, 16) restricted to the captured hexadecimal groups, which
the regular expressions guarantee to be nonempty strings of hexadecimal
digits; the empty or non-digit case is NaN (none). -/
def parseInt16 (s : String) : Option ℤ :=
  if s.data ≠ [] ∧ s.data.all isHexDigitCI then
    some (s.data.foldl (fun acc c => acc * 16 + (hexDigitVal c : ℤ)) 0)
  else none

def digitsVal (l : List Char) : ℕ := l.foldl (fun acc c => acc * 10 + digitVal c) 0

/-- Helper for jsParseFloat: parse an optional exponent part; returns the
exponent and the rest, or zero if the exponent syntax is absent or
incomplete (parseFloat backtracks over a bare e). -/
def parseExp (l : List Char) : ℤ :=
  match l with
  | 'e' :: r | 'E' :: r =>
    match r with
    | '+' :: r2 =>
      (match r2.span isDigitCh with
       | ([], _) => 0
       | (ds, _) => (digitsVal ds : ℤ))
    | '-' :: r2 =>
      (match r2.span isDigitCh with
       | ([], _) => 0
       | (ds, _) => -(digitsVal ds : ℤ))
    | _ =>
      (match r.span isDigitCh with
       | ([], _) => 0
       | (ds, _) => (digitsVal ds : ℤ))
  | _ => 0

/-- Core of parseFloat after white space and sign: significand digits with
an optional dot, then an optional exponent; none when no digit occurs. -/
def parseFloatMag (l : List Char) : Option ℚ :=
  let (ip, r1) := l.span isDigitCh
  let (fp, r2) :=
    match r1 with
    | '.' :: r => r.span isDigitCh
    | _ => ([], r1)
  if ip = [] ∧ fp = [] then none
  else
    let mant : ℚ := (digitsVal ip : ℚ) + (digitsVal fp : ℚ) / 10 ^ fp.length
    let e : ℤ :=
      match r1 with
      | '.' :: _ => parseExp r2
      | _ => parseExp r1
    some (mant * (10 : ℚ) ^ e)

/-- parseFloat: skip leading white space, optional sign, then the longest
numeric prefix; NaN (none) when no digits are found.  The Infinity literal
is not modelled: every call site receives either a lower-cased string (in
which parseFloat does not recognise the literal) or a capture of a
character class that excludes letters. -/
def jsParseFloat (s : String) : Option ℚ :=
  match trimLeftL s.data with
  | '+' :: r => parseFloatMag r
  | '-' :: r => (parseFloatMag r).map Neg.neg
  | r => parseFloatMag r

/-! Number printing.  Every number the source interpolates into a string has
first been rounded to at most four decimal places, so the shortest decimal
representation JavaScript prints is the plain decimal expansion. -/

/-- Smallest k at or below the fuel such that q times 10 to the k is an
integer. -/
def decScale (q : ℚ) : ℕ → Option ℕ
  | 0 => if (q * 10 ^ (0 : ℕ)).den = 1 then some 0 else none
  | n + 1 =>
    match decScale q n with
    | some k => some k
    | none => if (q * 10 ^ (n + 1)).den = 1 then some (n + 1) else none

def natDecimals (m : ℕ) (width : ℕ) : List Char :=
  let ds := (Nat.toDigits 10 m)
  List.replicate (width - ds.length) '0' ++ ds

/-- Decimal expansion of a nonnegative rational whose denominator divides a
power of ten. -/
def qToJsStringNN (q : ℚ) : String :=
  match decScale q 8 with
  | none => "?"
  | some 0 => String.mk (Nat.toDigits 10 q.num.toNat)
  | some k =>
    let m := (q * 10 ^ k).num.toNat
    String.mk (Nat.toDigits 10 (m / 10 ^ k) ++ ['.'] ++ natDecimals (m % 10 ^ k) k)

/-- JavaScript number-to-string conversion for the finite decimals the
serialisers print (NaN prints as the three letters NaN). -/
def qToJsString : JNum → String
  | none => "NaN"
  | some q => if q < 0 then "-" ++ qToJsStringNN (-q) else qToJsStringNN q

def hexDigitChar (n : ℕ) : Char :=
  if n < 10 then Char.ofNat ('0'.toNat + n) else Char.ofNat ('a'.toNat + (n - 10))

/-- Number.prototype.toString(16) padded to two digits, for integers in the
range 0 to 255 (the argument of toHexPart after rounding and clamping). -/
def hex2 (n : ℤ) : String :=
  String.mk [hexDigitChar (n.toNat / 16), hexDigitChar (n.toNat % 16)]

/-- Source function toHexPart(value): round the clamped channel and print
two lowercase hexadecimal digits; a NaN channel prints as NaN (whose
padStart leaves the three letters unchanged). -/
def toHexPart : JNum → String
  | none => "NaN"
  | some q => hex2 (Int.floor (clampQ q 0 255 + 1/2))

/-! Regular-expression matchers.  Each CSS_..._REGEX of the source is a
fixed pattern whose quantified subexpressions are single character classes;
the bespoke matchers below implement exactly the regular-expression
semantics (greedy matching with backtracking).  At every point where two
adjacent quantified classes are disjoint the greedy match is deterministic,
and the only backtracking point, the optional alpha group after optional
white space, is resolved by the case analysis in the tail functions. -/

/-- Upper-case partner of a lower-case ASCII pattern letter. -/
def upChar (p : Char) : Char := Char.ofNat (p.toNat - 32)

/-- Strip a literal prefix of lower-case letters, ignoring ASCII case (the
ignore-case regex flag matches each pattern letter and its upper-case
partner). -/
def stripCI : List Char → List Char → Option (List Char)
  | [], l => some l
  | _, [] => none
  | p :: ps, c :: cs => if c = p ∨ c = upChar p then stripCI ps cs else none

/-- Match a nonempty maximal run of class characters (a greedy plus over a
character class). -/
def plusCls (p : Char → Bool) (l : List Char) : Option (String × List Char) :=
  match l.span p with
  | ([], _) => none
  | (tok, rest) => some (String.mk tok, rest)

/-- Tail of the modern functional syntax after the third component:
white space, an optional alpha group introduced by a slash or a space, more
white space, then the closing parenthesis and end of input.  Returns none
on failure, some none on a match without alpha, some (some tok) with the
captured alpha. -/
def tailModern (l : List Char) : Option (Option String) :=
  match trimLeftL l with
  | [')'] => some none
  | '/' :: r2 =>
    (match plusCls isClsNum (trimLeftL r2) with
     | some (tok, r4) => if trimLeftL r4 = [')'] then some (some tok) else none
     | none => none)
  | c :: _ =>
    if isClsNum c && (match l with | c0 :: _ => isJsSpace c0 | [] => false) then
      match plusCls isClsNum (trimLeftL l) with
      | some (tok, r4) => if trimLeftL r4 = [')'] then some (some tok) else none
      | none => none
    else none
  | [] => none

/-- Tail of the legacy comma syntax after the third component. -/
def tailLegacy (l : List Char) : Option (Option String) :=
  match trimLeftL l with
  | [')'] => some none
  | ',' :: r2 =>
    (match plusCls isClsNum (trimLeftL r2) with
     | some (tok, r4) => if trimLeftL r4 = [')'] then some (some tok) else none
     | none => none)
  | _ => none

/-- Consume the optional letter a of the rgba and hsla function names
(ignoring case). -/
def skipOptA (optA : Bool) (l0 : List Char) : List Char :=
  if optA then
    match l0 with
    | c :: r => if c = 'a' ∨ c = 'A' then r else l0
    | [] => l0
  else l0

/-- Matcher of the modern space-separated functional patterns
CSS_RGB_REGEX, CSS_HSL_REGEX and CSS_OKLCH_REGEX: the function name
(with an optional a for rgba and hsla), an opening parenthesis, three
class-constrained components separated by white space, and the optional
alpha tail. -/
def matchModern (name : String) (optA : Bool) (p1 p2 p3 : Char → Bool) (s : String) :
    Option (String × String × String × Option String) :=
  match stripCI name.data s.data with
  | none => none
  | some l0 =>
    match skipOptA optA l0 with
    | cp :: l2 =>
      if cp = '(' then
        match plusCls p1 (trimLeftL l2) with
        | none => none
        | some (g1, r1) =>
          match r1 with
          | c :: _ =>
            if isJsSpace c then
              match plusCls p2 (trimLeftL r1) with
              | none => none
              | some (g2, r2) =>
                match r2 with
                | c2 :: _ =>
                  if isJsSpace c2 then
                    match plusCls p3 (trimLeftL r2) with
                    | none => none
                    | some (g3, r3) =>
                      match tailModern r3 with
                      | none => none
                      | some a => some (g1, g2, g3, a)
                  else none
                | [] => none
            else none
          | [] => none
      else none
    | [] => none

/-- Matcher of the legacy comma-separated patterns CSS_RGB_LEGACY_REGEX and
CSS_HSL_LEGACY_REGEX. -/
def matchLegacy (name : String) (optA : Bool) (p1 p2 p3 : Char → Bool) (s : String) :
    Option (String × String × String × Option String) :=
  match stripCI name.data s.data with
  | none => none
  | some l0 =>
    match skipOptA optA l0 with
    | cp :: l2 =>
      if cp = '(' then
        match plusCls p1 (trimLeftL l2) with
        | none => none
        | some (g1, r1) =>
          match trimLeftL r1 with
          | ',' :: r1b =>
            (match plusCls p2 (trimLeftL r1b) with
             | none => none
             | some (g2, r2) =>
               match trimLeftL r2 with
               | ',' :: r2b =>
                 (match plusCls p3 (trimLeftL r2b) with
                  | none => none
                  | some (g3, r3) =>
                    match tailLegacy r3 with
                    | none => none
                    | some a => some (g1, g2, g3, a))
               | _ => none)
          | _ => none
      else none
    | [] => none

/-- Groups captured by CSS_HEX_REGEX: its first alternative (three or four
single hexadecimal digits) or its second (three or four two-digit pairs);
the source branches on whether the fifth group of the pattern is defined,
that is on the alternative. -/
inductive HexGroups where
  | short (c1 c2 c3 : Char) (c4 : Option Char)
  | long (p1 p2 p3 : String) (p4 : Option String)

/-- Matcher of CSS_HEX_REGEX: an optional hash, then three, four, six or
eight hexadecimal digits spanning the whole string. -/
def hexMatch (s : String) : Option HexGroups :=
  let l := match s.data with
    | c :: r => if c = '#' then r else s.data
    | [] => s.data
  if l.all isHexDigitCI then
    match l with
    | [a, b, c] => some (HexGroups.short a b c none)
    | [a, b, c, d] => some (HexGroups.short a b c (some d))
    | [a, b, c, d, e, f] =>
      some (HexGroups.long (String.mk [a, b]) (String.mk [c, d]) (String.mk [e, f]) none)
    | [a, b, c, d, e, f, g, h] =>
      some (HexGroups.long (String.mk [a, b]) (String.mk [c, d]) (String.mk [e, f])
        (some (String.mk [g, h])))
    | _ => none
  else none

/-- Matcher of CSS_HEX_LEGACY_NUM_REGEX: the characters 0x (ignoring case)
followed by six or eight hexadecimal digits; with eight the leading pair is
the alpha group. -/
def hexLegacyMatch (s : String) : Option (Option String × String × String × String) :=
  match s.data with
  | c0 :: x :: l =>
    if c0 = '0' ∧ (x = 'x' ∨ x = 'X') ∧ l.all isHexDigitCI then
      match l with
      | [a, b, c, d, e, f] =>
        some (none, String.mk [a, b], String.mk [c, d], String.mk [e, f])
      | [a, b, c, d, e, f, g, h] =>
        some (some (String.mk [a, b]), String.mk [c, d], String.mk [e, f], String.mk [g, h])
      | _ => none
    else none
  | _ => none

def rgbMatch (s : String) : Option (String × String × String × Option String) :=
  match matchModern "rgb" true isClsNum isClsNum isClsNum s with
  | some m => some m
  | none => matchLegacy "rgb" true isClsNum isClsNum isClsNum s

def hslMatch (s : String) : Option (String × String × String × Option String) :=
  match matchModern "hsl" true isClsHue isClsNum isClsNum s with
  | some m => some m
  | none => matchLegacy "hsl" true isClsHue isClsNum isClsNum s

def oklchMatch (s : String) : Option (String × String × String × Option String) :=
  matchModern "oklch" false isClsNum isClsNum isClsHue s

/-- The CSS_NAMED_COLORS table of the source, as an association list. -/
def cssNamedColors : List (String × String) := [
  ("aliceblue", "#f0f8ff"), ("antiquewhite", "#faebd7"), ("aqua", "#00ffff"),
  ("aquamarine", "#7fffd4"), ("azure", "#f0ffff"), ("beige", "#f5f5dc"),
  ("bisque", "#ffe4c4"), ("black", "#000000"), ("blanchedalmond", "#ffebcd"),
  ("blue", "#0000ff"), ("blueviolet", "#8a2be2"), ("brown", "#a52a2a"),
  ("burlywood", "#deb887"), ("cadetblue", "#5f9ea0"), ("chartreuse", "#7fff00"),
  ("chocolate", "#d2691e"), ("coral", "#ff7f50"), ("cornflowerblue", "#6495ed"),
  ("cornsilk", "#fff8dc"), ("crimson", "#dc143c"), ("cyan", "#00ffff"),
  ("darkblue", "#00008b"), ("darkcyan", "#008b8b"), ("darkgoldenrod", "#b8860b"),
  ("darkgray", "#a9a9a9"), ("darkgreen", "#006400"), ("darkgrey", "#a9a9a9"),
  ("darkkhaki", "#bdb76b"), ("darkmagenta", "#8b008b"), ("darkolivegreen", "#556b2f"),
  ("darkorange", "#ff8c00"), ("darkorchid", "#9932cc"), ("darkred", "#8b0000"),
  ("darksalmon", "#e9967a"), ("darkseagreen", "#8fbc8f"), ("darkslateblue", "#483d8b"),
  ("darkslategray", "#2f4f4f"), ("darkslategrey", "#2f4f4f"), ("darkturquoise", "#00ced1"),
  ("darkviolet", "#9400d3"), ("deeppink", "#ff1493"), ("deepskyblue", "#00bfff"),
  ("dimgray", "#696969"), ("dimgrey", "#696969"), ("dodgerblue", "#1e90ff"),
  ("firebrick", "#b22222"), ("floralwhite", "#fffaf0"), ("forestgreen", "#228b22"),
  ("fuchsia", "#ff00ff"), ("gainsboro", "#dcdcdc"), ("ghostwhite", "#f8f8ff"),
  ("gold", "#ffd700"), ("goldenrod", "#daa520"), ("gray", "#808080"),
  ("green", "#008000"), ("greenyellow", "#adff2f"), ("grey", "#808080"),
  ("honeydew", "#f0fff0"), ("hotpink", "#ff69b4"), ("indianred", "#cd5c5c"),
  ("indigo", "#4b0082"), ("ivory", "#fffff0"), ("khaki", "#f0e68c"),
  ("lavender", "#e6e6fa"), ("lavenderblush", "#fff0f5"), ("lawngreen", "#7cfc00"),
  ("lemonchiffon", "#fffacd"), ("lightblue", "#add8e6"), ("lightcoral", "#f08080"),
  ("lightcyan", "#e0ffff"), ("lightgoldenrodyellow", "#fafad2"), ("lightgray", "#d3d3d3"),
  ("lightgreen", "#90ee90"), ("lightgrey", "#d3d3d3"), ("lightpink", "#ffb6c1"),
  ("lightsalmon", "#ffa07a"), ("lightseagreen", "#20b2aa"), ("lightskyblue", "#87cefa"),
  ("lightslategray", "#778899"), ("lightslategrey", "#778899"), ("lightsteelblue", "#b0c4de"),
  ("lightyellow", "#ffffe0"), ("lime", "#00ff00"), ("limegreen", "#32cd32"),
  ("linen", "#faf0e6"), ("magenta", "#ff00ff"), ("maroon", "#800000"),
  ("mediumaquamarine", "#66cdaa"), ("mediumblue", "#0000cd"), ("mediumorchid", "#ba55d3"),
  ("mediumpurple", "#9370db"), ("mediumseagreen", "#3cb371"), ("mediumslateblue", "#7b68ee"),
  ("mediumspringgreen", "#00fa9a"), ("mediumturquoise", "#48d1cc"), ("mediumvioletred", "#c71585"),
  ("midnightblue", "#191970"), ("mintcream", "#f5fffa"), ("mistyrose", "#ffe4e1"),
  ("moccasin", "#ffe4b5"), ("navajowhite", "#ffdead"), ("navy", "#000080"),
  ("oldlace", "#fdf5e6"), ("olive", "#808000"), ("olivedrab", "#6b8e23"),
  ("orange", "#ffa500"), ("orangered", "#ff4500"), ("orchid", "#da70d6"),
  ("palegoldenrod", "#eee8aa"), ("palegreen", "#98fb98"), ("paleturquoise", "#afeeee"),
  ("palevioletred", "#db7093"), ("papayawhip", "#ffefd5"), ("peachpuff", "#ffdab9"),
  ("peru", "#cd853f"), ("pink", "#ffc0cb"), ("plum", "#dda0dd"),
  ("powderblue", "#b0e0e6"), ("purple", "#800080"), ("rebeccapurple", "#663399"),
  ("red", "#ff0000"), ("rosybrown", "#bc8f8f"), ("royalblue", "#4169e1"),
  ("saddlebrown", "#8b4513"), ("salmon", "#fa8072"), ("sandybrown", "#f4a460"),
  ("seagreen", "#2e8b57"), ("seashell", "#fff5ee"), ("sienna", "#a0522d"),
  ("silver", "#c0c0c0"), ("skyblue", "#87ceeb"), ("slateblue", "#6a5acd"),
  ("slategray", "#708090"), ("slategrey", "#708090"), ("snow", "#fffafa"),
  ("springgreen", "#00ff7f"), ("steelblue", "#4682b4"), ("tan", "#d2b48c"),
  ("teal", "#008080"), ("thistle", "#d8bfd8"), ("tomato", "#ff6347"),
  ("transparent", "#00000000"), ("turquoise", "#40e0d0"), ("violet", "#ee82ee"),
  ("wheat", "#f5deb3"), ("white", "#ffffff"), ("whitesmoke", "#f5f5f5"),
  ("yellow", "#ffff00"), ("yellowgreen", "#9acd32")
]

/-- Lookup in the named-color table (hasOwnProperty plus indexing). -/
def lookupNamed (s : String) : Option String :=
  (cssNamedColors.find? (fun kv => kv.1 = s)).map (fun kv => kv.2)

/-! Colorimetric core: fixed matrices and transfer functions. -/

abbrev V3 := ℚ × ℚ × ℚ

abbrev M3 := V3 × V3 × V3

def SRGB_TO_XYZ_MATRIX : M3 :=
  ((0.4123907993, 0.3575843394, 0.1804807884),
   (0.2126390059, 0.7151686788, 0.0721923154),
   (0.0193308187, 0.1191947798, 0.9505321522))

def XYZ_TO_SRGB_MATRIX : M3 :=
  ((3.240969942, -1.5373831776, -0.4986107603),
   (-0.9692436363, 1.8759675015, 0.0415550574),
   (0.0556300797, -0.2039769589, 1.0569715142))

def OKLAB_XYZ_TO_LMS_MATRIX : M3 :=
  ((0.8189330101, 0.3618667424, -0.1288597137),
   (0.0329845436, 0.9293118715, 0.0361456387),
   (0.0482003018, 0.2643662691, 0.633851707))

def OKLAB_LMS_P_TO_LAB_MATRIX : M3 :=
  ((0.2104542553, 0.793617785, -0.0040720468),
   (1.9779984951, -2.428592205, 0.4505937099),
   (0.0259040371, 0.7827717662, -0.808675766))

def OKLAB_LAB_TO_LMS_P_MATRIX : M3 :=
  ((0.99999999845051981432, 0.39633777736240243769, 0.21580375730249306069),
   (1.00000000838056630002, -0.10556134579289659905, -0.06385417279300911922),
   (1.00000005467234261899, -0.08948417752909546082, -1.2914855480408174125))

def OKLAB_LMS_CUBED_TO_XYZ_MATRIX : M3 :=
  ((1.226879878071479, -0.5578149965684922, 0.2813910501598616),
   (-0.04057575003935402, 1.112286829376436, -0.07171107933708207),
   (-0.07637293665230801, -0.4214933235444953, 1.586161639400282))

def dot3 (r v : V3) : ℚ := r.1 * v.1 + r.2.1 * v.2.1 + r.2.2 * v.2.2

/-- Source function multiplyMatrix(matrix, vector). -/
def multiplyMatrix (m : M3) (v : V3) : V3 := (dot3 m.1 v, dot3 m.2.1 v, dot3 m.2.2 v)

/-- The transcendental library functions the source calls, taken as
parameters of the development: pow is Math.pow restricted to a fractional
exponent (returning none for the NaN results JavaScript produces on a
negative base), and pi is Math.PI.  Integer-exponent calls of Math.pow are
exact powers and are modelled directly. -/
structure MathOps where
  pi : ℚ
  cosOp : ℚ → ℚ
  sinOp : ℚ → ℚ
  powOp : ℚ → ℚ → Option ℚ
  cbrtOp : ℚ → ℚ
  sqrtOp : ℚ → ℚ
  atan2Op : ℚ → ℚ → ℚ

/-- A concrete instantiation of MathOps used to state closed theorems about
computations whose evaluated paths never consult the transcendental
operations; any other instantiation gives the same values on those paths. -/
def sampleOps : MathOps :=
  ⟨355/113, fun _ => 0, fun _ => 0, fun _ _ => some 0, fun _ => 0, fun _ => 0, fun _ _ => 0⟩

/-- Source function srgbToLinear(c). -/
def srgbToLinear (ops : MathOps) (c : ℚ) : JNum :=
  let cn := c / 255
  if cn ≤ 0.04045 then some (cn / 12.92) else ops.powOp ((cn + 0.055) / 1.055) 2.4

/-- Source function linearToSrgb(clin), returning the rounded channel. -/
def linearToSrgb (ops : MathOps) (clin : ℚ) : Option ℤ :=
  let cs : JNum :=
    if clin ≤ 0.0031308 then some (12.92 * clin)
    else (ops.powOp clin (1 / 2.4)).map (fun p => 1.055 * p - 0.055)
  cs.map (fun q => Int.floor (clampQ q 0 1 * 255 + 1/2))

/-- Helper of hslToRgb. -/
def hueToRgb (p q t0 : ℚ) : ℚ :=
  let t1 := if t0 < 0 then t0 + 1 else t0
  let t := if t1 > 1 then t1 - 1 else t1
  if t < 1/6 then p + (q - p) * 6 * t
  else if t < 1/2 then q
  else if t < 2/3 then p + (q - p) * (2/3 - t) * 6
  else p

/-- Source function hslToRgb(h, s, l): hue in degrees, saturation and
lightness in the 0 to 100 range; returns the rounded integer channels. -/
def hslToRgb (h0 s0 l0 : ℚ) : ℤ × ℤ × ℤ :=
  let h := jsMod (jsMod h0 360 + 360) 360 / 360
  let s := clampQ s0 0 100 / 100
  let l := clampQ l0 0 100 / 100
  if s = 0 then
    let gray := Int.floor (l * 255 + 1/2)
    (gray, gray, gray)
  else
    let q := if l < 1/2 then l * (1 + s) else l + s - l * s
    let p := 2 * l - q
    (Int.floor (hueToRgb p q (h + 1/3) * 255 + 1/2),
     Int.floor (hueToRgb p q h * 255 + 1/2),
     Int.floor (hueToRgb p q (h - 1/3) * 255 + 1/2))

/-- Source function parseHue(value): lower-case and trim, parse the number
(NaN gives hue 0), strip the digit, dot, sign and exponent-letter
characters to find the unit, convert to degrees, reduce into the interval
from 0 to 360 and normalise negative zero.  An unrecognised unit gives 0. -/
def parseHue (ops : MathOps) (value : String) : ℚ :=
  let strValue := jsTrim (jsToLower value)
  match jsParseFloat strValue with
  | none => 0
  | some numValue =>
    let unitsPart := jsToLower (jsTrim (String.mk (strValue.data.filter
      (fun c => !(isDigitCh c || c = '.' || c = '+' || c = '-' || c = 'e' || c = 'E')))))
    let deg? : Option ℚ :=
      if unitsPart = "deg" ∨ unitsPart = "°" ∨ unitsPart = "" then some numValue
      else if unitsPart = "rad" then some (numValue * 180 / ops.pi)
      else if unitsPart = "grad" then some (numValue * 0.9)
      else if unitsPart = "turn" then some (numValue * 360)
      else none
    match deg? with
    | none => 0
    | some degreesValue =>
      let normalizedHue := jsMod degreesValue 360
      if normalizedHue < 0 then normalizedHue + 360 else normalizedHue

/-- Source function parseHslPercentage(value): requires a percent suffix of
the trimmed token and a parseable number, throwing (Except.error) with the
diagnostic otherwise. -/
def parseHslPercentage (value : String) : Except String ℚ :=
  let strValue := jsTrim value
  if !(strValue.endsWith "%") then
    Except.error "Invalid HSL saturation/lightness value: \x27%\x27 unit is required."
  else
    match jsParseFloat strValue with
    | none => Except.error "Invalid HSL saturation/lightness percentage value: Not a number before \x27%\x27."
    | some percValue => Except.ok (clampQ percValue 0 100)

/-- Source function parseCssNumber(value, maxIfPercent). -/
def parseCssNumber (value : String) (maxIfPercent : ℚ) : JNum :=
  if value.endsWith "%" then
    clamp ((jsParseFloat value).map (fun q => q / 100 * maxIfPercent)) 0 maxIfPercent
  else clamp (jsParseFloat value) 0 maxIfPercent

/-- Source function parseAlpha(value): absent or empty gives opaque with no
style hint; a percent token is divided by 100 with the percent hint; a bare
number is clamped with the number hint. -/
def parseAlpha (value : Option String) : JNum × Option String :=
  match value with
  | none => (some 1, none)
  | some v =>
    let strValue := jsTrim v
    if strValue = "" then (some 1, none)
    else if strValue.endsWith "%" then
      (jdiv (clamp (jsParseFloat strValue) 0 100) (some 100), some "percent")
    else (clamp (jsParseFloat strValue) 0 1, some "number")


/-! The color value (class GoatColorInternal) and its parser.  The
constructor initialises the channels to 0, alpha to 1, valid to false,
error to null, the style hint to null, stores the input, and runs _parse;
parseColor below is exactly this constructor. -/

structure GoatColorInternal where
  r : JNum
  g : JNum
  b : JNum
  a : JNum
  input : Option String
  valid : Bool
  error : Option String
  alphaInputStyleHint : Option String
deriving DecidableEq, Repr

/-- Field state established by the constructor before _parse assigns. -/
def baseColor (input : Option String) : GoatColorInternal :=
  ⟨some 0, some 0, some 0, some 1, input, false, none, none⟩

/-- Record a parse failure: valid false with the diagnostic, keeping every
field assigned before the throw was caught. -/
def errC (c : GoatColorInternal) (msg : String) : GoatColorInternal :=
  {c with valid := false, error := some msg}

/-- Record a parse success (the error field was reset to null on entry to
_parse and no failure path ran). -/
def okC (c : GoatColorInternal) : GoatColorInternal := {c with valid := true}

/-- Hex branch of _parse. -/
def hexApply (c : GoatColorInternal) (str : String) : Option GoatColorInternal :=
  match hexMatch str with
  | none => none
  | some (HexGroups.long p5 p6 p7 p8) =>
    let rv : JNum := (parseInt16 p5).map (fun v => (v : ℚ))
    let gv : JNum := (parseInt16 p6).map (fun v => (v : ℚ))
    let bv : JNum := (parseInt16 p7).map (fun v => (v : ℚ))
    let ah : JNum × Option String :=
      match p8 with
      | some p => ((parseInt16 p).map (fun v => (v : ℚ) / 255), some "number")
      | none => (some 1, c.alphaInputStyleHint)
    let c1 := {c with r := rv, g := gv, b := bv, a := ah.1, alphaInputStyleHint := ah.2}
    if rv = none ∨ gv = none ∨ bv = none then
      some (errC c1 "Invalid Hex format: Invalid character in hex string.")
    else some (okC c1)
  | some (HexGroups.short d1 d2 d3 d4) =>
    let rv : JNum := (parseInt16 (String.mk [d1, d1])).map (fun v => (v : ℚ))
    let gv : JNum := (parseInt16 (String.mk [d2, d2])).map (fun v => (v : ℚ))
    let bv : JNum := (parseInt16 (String.mk [d3, d3])).map (fun v => (v : ℚ))
    let ah : JNum × Option String :=
      match d4 with
      | some d => ((parseInt16 (String.mk [d, d])).map (fun v => (v : ℚ) / 255), some "number")
      | none => (some 1, c.alphaInputStyleHint)
    let c1 := {c with r := rv, g := gv, b := bv, a := ah.1, alphaInputStyleHint := ah.2}
    if rv = none ∨ gv = none ∨ bv = none then
      some (errC c1 "Invalid Hex format: Invalid character in hex string.")
    else some (okC c1)

/-- Legacy numeric hex (0x) branch of _parse. -/
def hexLegacyApply (c : GoatColorInternal) (str : String) : Option GoatColorInternal :=
  match hexLegacyMatch str with
  | none => none
  | some (m1, m2, m3, m4) =>
    let rv : JNum := (parseInt16 m2).map (fun v => (v : ℚ))
    let gv : JNum := (parseInt16 m3).map (fun v => (v : ℚ))
    let bv : JNum := (parseInt16 m4).map (fun v => (v : ℚ))
    let ah : JNum × Option String :=
      match m1 with
      | some p => ((parseInt16 p).map (fun v => (v : ℚ) / 255), some "number")
      | none => (some 1, c.alphaInputStyleHint)
    let c1 := {c with r := rv, g := gv, b := bv, a := ah.1, alphaInputStyleHint := ah.2}
    if rv = none ∨ gv = none ∨ bv = none ∨ ah.1 = none then
      some (errC c1 "Invalid 0x Hex format: Invalid character in 0x hex string.")
    else some (okC c1)

/-- Local OKLCH lightness parser of the OKLCH branch: a percent token is
clamped to the 0 to 100 range, a bare number is scaled by 100 first. -/
def parseOklchLightness (v : String) : Except String ℚ :=
  match jsParseFloat v with
  | none => Except.error "Invalid OKLCH Lightness value."
  | some n => Except.ok (if v.endsWith "%" then clampQ n 0 100 else clampQ (n * 100) 0 100)

/-- Local OKLCH chroma parser: a percent token is a fraction of the
reference maximum 0.4; clamping to the interval from 0 to Infinity is the
lower clamp at 0. -/
def parseOklchChroma (v : String) : Except String ℚ :=
  match jsParseFloat v with
  | none => Except.error "Invalid OKLCH Chroma value."
  | some n => Except.ok (if v.endsWith "%" then max 0 (n / 100 * 0.4) else max 0 n)

/-- OKLCH to sRGB conversion chain of the OKLCH branch (the two cube
operations are Math.pow with the integer exponent 3, hence exact powers). -/
def oklchToSrgb (ops : MathOps) (l_val c_val h_val : ℚ) : Option ℤ × Option ℤ × Option ℤ :=
  let lNorm := l_val / 100
  let hRad := h_val * ops.pi / 180
  let aComp := c_val * ops.cosOp hRad
  let bComp := c_val * ops.sinOp hRad
  let lms := multiplyMatrix OKLAB_LAB_TO_LMS_P_MATRIX (lNorm, aComp, bComp)
  let xyz := multiplyMatrix OKLAB_LMS_CUBED_TO_XYZ_MATRIX (lms.1 ^ 3, lms.2.1 ^ 3, lms.2.2 ^ 3)
  let rgbl := multiplyMatrix XYZ_TO_SRGB_MATRIX xyz
  (linearToSrgb ops rgbl.1, linearToSrgb ops rgbl.2.1, linearToSrgb ops rgbl.2.2)

/-- OKLCH branch of _parse. -/
def oklchApply (ops : MathOps) (c : GoatColorInternal) (str : String) : Option GoatColorInternal :=
  match oklchMatch str with
  | none => none
  | some (m1, m2, m3, m4) =>
    match parseOklchLightness m1 with
    | Except.error e => some (errC c ("Invalid OKLCH format: " ++ e))
    | Except.ok l_val =>
      match parseOklchChroma m2 with
      | Except.error e => some (errC c ("Invalid OKLCH format: " ++ e))
      | Except.ok c_val =>
        let h_val := parseHue ops m3
        let al := parseAlpha m4
        let rgb := oklchToSrgb ops l_val c_val h_val
        let c1 := {c with r := rgb.1.map (fun v => (v : ℚ)), g := rgb.2.1.map (fun v => (v : ℚ)),
                          b := rgb.2.2.map (fun v => (v : ℚ)), a := al.1, alphaInputStyleHint := al.2}
        if c1.r = none ∨ c1.g = none ∨ c1.b = none ∨ c1.a = none then
          some (errC c1 "Invalid OKLCH format: OKLCH to RGB conversion resulted in non-finite component values.")
        else some (okC c1)

/-- HSL branch of _parse: argument order means a saturation failure throws
before any channel is assigned. -/
def hslApply (ops : MathOps) (c : GoatColorInternal) (str : String) : Option GoatColorInternal :=
  match hslMatch str with
  | none => none
  | some (m1, m2, m3, m4) =>
    match parseHslPercentage m2 with
    | Except.error e => some (errC c ("Invalid HSL format: " ++ e))
    | Except.ok sPct =>
      match parseHslPercentage m3 with
      | Except.error e => some (errC c ("Invalid HSL format: " ++ e))
      | Except.ok lPct =>
        let rgb := hslToRgb (parseHue ops m1) sPct lPct
        let al := parseAlpha m4
        let c1 := {c with r := some (rgb.1 : ℚ), g := some (rgb.2.1 : ℚ), b := some (rgb.2.2 : ℚ),
                          a := al.1, alphaInputStyleHint := al.2}
        if c1.r = none ∨ c1.g = none ∨ c1.b = none ∨ c1.a = none then
          some (errC c1 "Invalid HSL format: HSL to RGB conversion resulted in non-finite component values.")
        else some (okC c1)

/-- RGB branch of _parse. -/
def rgbApply (c : GoatColorInternal) (str : String) : Option GoatColorInternal :=
  match rgbMatch str with
  | none => none
  | some (m1, m2, m3, m4) =>
    let rv := parseCssNumber m1 255
    let gv := parseCssNumber m2 255
    let bv := parseCssNumber m3 255
    let al := parseAlpha m4
    let c1 := {c with r := rv, g := gv, b := bv, a := al.1, alphaInputStyleHint := al.2}
    if c1.r = none ∨ c1.g = none ∨ c1.b = none ∨ c1.a = none then
      some (errC c1 "Invalid RGB format: One or more RGB(A) components are not valid numbers.")
    else some (okC c1)

/-- The body of _parse after normalisation: try hex, 0x hex, OKLCH, HSL
and RGB in the fixed order of the source, with the unrecognized-format
diagnostic naming the raw input when nothing matches. -/
def parseBranches (ops : MathOps) (c : GoatColorInternal) (str raw : String) :
    GoatColorInternal :=
  match hexApply c str with
  | some c1 => c1
  | none =>
    match hexLegacyApply c str with
    | some c1 => c1
    | none =>
      match oklchApply ops c str with
      | some c1 => c1
      | none =>
        match hslApply ops c str with
        | some c1 => c1
        | none =>
          match rgbApply c str with
          | some c1 => c1
          | none => errC c ("Unrecognized color format: \"" ++ raw ++ "\"")

/-- The constructor: initial fields plus _parse(colorInput), substituting a
named color before the branch cascade. -/
def parseColor (ops : MathOps) (colorInput : Option String) : GoatColorInternal :=
  let c := baseColor colorInput
  match colorInput with
  | none => errC c "Input color is null or undefined."
  | some raw =>
    let str0 := jsTrim raw
    if str0 = "" then errC c "Input color string is empty."
    else
      let str := match lookupNamed (jsToLower str0) with
        | some hx => hx
        | none => str0
      parseBranches ops c str raw

/-- Source method setAlpha(alphaValue, styleHint): clamp the alpha, store
the hint, and recompute validity as the channels being real numbers. -/
def setAlpha (c : GoatColorInternal) (alphaValue : ℚ) (styleHint : String) : GoatColorInternal :=
  let a1 : JNum := some (clampQ alphaValue 0 1)
  let hint1 : Option String :=
    if styleHint = "number" ∨ styleHint = "percent" then some styleHint else some "percent"
  let valid1 : Bool := !(c.r = none || c.g = none || c.b = none)
  let err1 : Option String :=
    if valid1 then c.error
    else match c.error with
      | some e => some e
      | none => some "Color became invalid after setting alpha (underlying RGB might be corrupt)."
  {c with a := a1, alphaInputStyleHint := hint1, valid := valid1, error := err1}

structure RgbRec where
  r : JNum
  g : JNum
  b : JNum
deriving DecidableEq, Repr

structure RgbaRec where
  r : JNum
  g : JNum
  b : JNum
  a : JNum
deriving DecidableEq, Repr

structure HslRec where
  h : ℚ
  s : ℚ
  l : ℚ
deriving DecidableEq, Repr

structure OklchRec where
  l : JNum
  c : JNum
  h : JNum
deriving DecidableEq, Repr

/-- Source method toRgb(). -/
def toRgb (c : GoatColorInternal) : RgbRec :=
  if c.valid = false then ⟨some 0, some 0, some 0⟩
  else ⟨c.r.map jsRound, c.g.map jsRound, c.b.map jsRound⟩

/-- Source method toRgba(). -/
def toRgba (c : GoatColorInternal) : RgbaRec :=
  if c.valid = false then ⟨some 0, some 0, some 0, some 1⟩
  else ⟨c.r.map jsRound, c.g.map jsRound, c.b.map jsRound, c.a⟩

/-- Source method toHsl().  A valid color never stores NaN channels (every
construction site checks them), so extracting with a default of 0 is a
totalisation that no reachable value exercises. -/
def toHsl (c : GoatColorInternal) : HslRec :=
  if c.valid = false then ⟨0, 0, 0⟩
  else
    let rN := (c.r.getD 0) / 255
    let gN := (c.g.getD 0) / 255
    let bN := (c.b.getD 0) / 255
    let mx := max rN (max gN bN)
    let mn := min rN (min gN bN)
    let l := (mx + mn) / 2
    if mx = mn then ⟨0, 0, l * 100⟩
    else
      let d := mx - mn
      let s := if l > 1/2 then d / (2 - mx - mn) else d / (mx + mn)
      let h6 :=
        if mx = rN then (gN - bN) / d + (if gN < bN then 6 else 0)
        else if mx = gN then (bN - rN) / d + 2
        else (rN - gN) / d + 4
      ⟨h6 / 6 * 360, s * 100, l * 100⟩

def jV3 := JNum × JNum × JNum

def jdot3 (row : V3) (v : jV3) : JNum :=
  jadd (jadd (jmul (some row.1) v.1) (jmul (some row.2.1) v.2.1)) (jmul (some row.2.2) v.2.2)

def jmulMatrix (m : M3) (v : jV3) : jV3 := (jdot3 m.1 v, jdot3 m.2.1 v, jdot3 m.2.2 v)

/-- Source method toOklch() (lightness on the 0 to 100 scale). -/
def toOklch (ops : MathOps) (c : GoatColorInternal) : OklchRec :=
  if c.valid = false then ⟨some 0, some 0, some 0⟩
  else
    let rL := srgbToLinear ops (c.r.getD 0)
    let gL := srgbToLinear ops (c.g.getD 0)
    let bL := srgbToLinear ops (c.b.getD 0)
    let xyz := jmulMatrix SRGB_TO_XYZ_MATRIX (rL, gL, bL)
    let lms := jmulMatrix OKLAB_XYZ_TO_LMS_MATRIX xyz
    let lab := jmulMatrix OKLAB_LMS_P_TO_LAB_MATRIX
      (lms.1.map ops.cbrtOp, lms.2.1.map ops.cbrtOp, lms.2.2.map ops.cbrtOp)
    let aok := lab.2.1
    let bok := lab.2.2
    let cC := (jadd (jmul aok aok) (jmul bok bok)).map ops.sqrtOp
    let h0 := jbin (fun y x => ops.atan2Op y x * 180 / ops.pi) bok aok
    let h1 := if jltB h0 (some 0) then jadd h0 (some 360) else h0
    ⟨jmul lab.1 (some 100), cC, h1⟩


/-! Serialisers. -/

/-- Head character of a nonempty string (every toHexPart result is
nonempty). -/
def sHead (s : String) : Char := s.data.headD '0'

/-- Equality of the two characters of a two-character string, the doubled
digit test rH[0] === rH[1]; any other length (the three letters NaN) gives
false exactly as the character comparison does. -/
def pairEq (s : String) : Bool :=
  match s.data with
  | [x, y] => x = y
  | _ => false

/-- Source method _getAlphaString(). -/
def getAlphaString (c : GoatColorInternal) : String :=
  let alpha := c.a
  if jltB (jabs (jsub alpha (some 1))) (some (1 / 1000000000)) then "1"
  else if jltB (jabs (jsub alpha (some 0))) (some (1 / 1000000000)) then "0"
  else if c.alphaInputStyleHint = some "number" then
    let numStr := qToJsString (round alpha 3)
    if numStr.startsWith "0." then String.mk numStr.data.tail else numStr
  else qToJsString (round (jmul alpha (some 100)) 0) ++ "%"

/-- Invalid-color string result: the error or the fixed literal. -/
def invalidStr (c : GoatColorInternal) : String :=
  match c.error with
  | some e => e
  | none => "Invalid Color"

/-- Source method toRgbString(legacy). -/
def toRgbString (c : GoatColorInternal) (legacy : Bool) : String :=
  if c.valid = false then invalidStr c
  else
    let v := toRgb c
    if legacy then
      "rgb(" ++ qToJsString v.r ++ ", " ++ qToJsString v.g ++ ", " ++ qToJsString v.b ++ ")"
    else "rgb(" ++ qToJsString v.r ++ " " ++ qToJsString v.g ++ " " ++ qToJsString v.b ++ ")"

/-- Legacy alpha formatting shared by toRgbaString and toHslaString:
round to two decimals and strip a leading zero. -/
def legacyAlphaString (a : JNum) : String :=
  let s0 := qToJsString (round a 2)
  if s0 = "0.00" then "0"
  else if s0 = "1.00" then "1"
  else if s0.startsWith "0." then String.mk s0.data.tail
  else s0

/-- Source method toRgbaString(legacy). -/
def toRgbaString (c : GoatColorInternal) (legacy : Bool) : String :=
  if c.valid = false then invalidStr c
  else
    let v := toRgb c
    if legacy then
      "rgba(" ++ qToJsString v.r ++ ", " ++ qToJsString v.g ++ ", " ++ qToJsString v.b ++ ", " ++
        legacyAlphaString c.a ++ ")"
    else if jeqB c.a (some 1) then
      "rgb(" ++ qToJsString v.r ++ " " ++ qToJsString v.g ++ " " ++ qToJsString v.b ++ ")"
    else
      "rgb(" ++ qToJsString v.r ++ " " ++ qToJsString v.g ++ " " ++ qToJsString v.b ++ " / " ++
        getAlphaString c ++ ")"

/-- Source method toHex(). -/
def toHex (c : GoatColorInternal) : String :=
  if c.valid = false then invalidStr c
  else "#" ++ toHexPart c.r ++ toHexPart c.g ++ toHexPart c.b

/-- Source method toHexa(). -/
def toHexa (c : GoatColorInternal) : String :=
  if c.valid = false then invalidStr c
  else "#" ++ toHexPart c.r ++ toHexPart c.g ++ toHexPart c.b ++
    (if jeqB c.a (some 1) then "" else toHexPart (jmul c.a (some 255)))

/-- Source method toHexShort(): null unless valid, fully opaque and every
channel pair is a doubled digit. -/
def toHexShort (c : GoatColorInternal) : Option String :=
  if c.valid = false ∨ jltB c.a (some 1) = true then none
  else
    let rH := toHexPart c.r
    let gH := toHexPart c.g
    let bH := toHexPart c.b
    if pairEq rH && pairEq gH && pairEq bH then
      some ("#" ++ String.mk [sHead rH, sHead gH, sHead bH])
    else none

/-- Source method toHexaShort(). -/
def toHexaShort (c : GoatColorInternal) : Option String :=
  if c.valid = false then none
  else
    let rH := toHexPart c.r
    let gH := toHexPart c.g
    let bH := toHexPart c.b
    let aH := toHexPart (jmul c.a (some 255))
    if pairEq rH && pairEq gH && pairEq bH && pairEq aH then
      some (if jeqB c.a (some 1) then "#" ++ String.mk [sHead rH, sHead gH, sHead bH]
            else "#" ++ String.mk [sHead rH, sHead gH, sHead bH, sHead aH])
    else none

/-- Source method toHslString(legacy). -/
def toHslString (c : GoatColorInternal) (legacy : Bool) : String :=
  if c.valid = false then invalidStr c
  else
    let v := toHsl c
    let hS := qToJsString (round (some v.h) 0)
    let sS := qToJsString (round (some v.s) 0)
    let lS := qToJsString (round (some v.l) 0)
    if legacy then "hsl(" ++ hS ++ ", " ++ sS ++ "%, " ++ lS ++ "%)"
    else "hsl(" ++ hS ++ " " ++ sS ++ "% " ++ lS ++ "%)"

/-- Source method toHslaString(legacy). -/
def toHslaString (c : GoatColorInternal) (legacy : Bool) : String :=
  if c.valid = false then invalidStr c
  else
    let v := toHsl c
    let hS := qToJsString (round (some v.h) 0)
    let sS := qToJsString (round (some v.s) 0)
    let lS := qToJsString (round (some v.l) 0)
    if legacy then
      "hsla(" ++ hS ++ ", " ++ sS ++ "%, " ++ lS ++ "%, " ++ legacyAlphaString c.a ++ ")"
    else if jeqB c.a (some 1) then "hsl(" ++ hS ++ " " ++ sS ++ "% " ++ lS ++ "%)"
    else "hsl(" ++ hS ++ " " ++ sS ++ "% " ++ lS ++ "% / " ++ getAlphaString c ++ ")"

/-- Source method toOklchString(). -/
def toOklchString (ops : MathOps) (c : GoatColorInternal) : String :=
  if c.valid = false then invalidStr c
  else
    let v := toOklch ops c
    "oklch(" ++ qToJsString (round v.l 0) ++ "% " ++ qToJsString (round v.c 3) ++ " " ++
      qToJsString (round v.h 0) ++ ")"

/-- Source method toOklchaString(). -/
def toOklchaString (ops : MathOps) (c : GoatColorInternal) : String :=
  if c.valid = false then invalidStr c
  else
    let v := toOklch ops c
    if jeqB c.a (some 1) then
      "oklch(" ++ qToJsString (round v.l 0) ++ "% " ++ qToJsString (round v.c 3) ++ " " ++
        qToJsString (round v.h 0) ++ ")"
    else
      "oklch(" ++ qToJsString (round v.l 0) ++ "% " ++ qToJsString (round v.c 3) ++ " " ++
        qToJsString (round v.h 0) ++ " / " ++ getAlphaString c ++ ")"

/-- Test whether the stored input string starts with the given lower-case
prefix after lower-casing (a missing or empty input fails the truthiness
test of the source and the prefix test alike). -/
def inputStarts (c : GoatColorInternal) (p : String) : Bool :=
  match c.input with
  | some s => (jsToLower s).startsWith p
  | none => false

/-- Source method toString(format): on an invalid color the original input
(or the error, or the fixed literal); otherwise the requested format, with
the auto mode preferring short hex, then the input family, then hex or
RGBA. -/
def toStringFmt (ops : MathOps) (c : GoatColorInternal) (format : String) : String :=
  if c.valid = false then
    (match c.input with
     | none => invalidStr c
     | some s => s)
  else
    let hexS := toHexShort c
    let hexaS := toHexaShort c
    let f := jsToLower format
    if f = "hex" then toHex c
    else if f = "hexa" then toHexa c
    else if f = "hexshort" then (match hexS with | some s => s | none => toHex c)
    else if f = "hexashort" then (match hexaS with | some s => s | none => toHexa c)
    else if f = "rgb" then toRgbString c false
    else if f = "rgba" then toRgbaString c false
    else if f = "rgblegacy" then toRgbString c true
    else if f = "rgbalegacy" then toRgbaString c true
    else if f = "hsl" then toHslString c false
    else if f = "hsla" then toHslaString c false
    else if f = "hsllegacy" then toHslString c true
    else if f = "hslalegacy" then toHslaString c true
    else if f = "oklch" then toOklchString ops c
    else if f = "oklcha" then toOklchaString ops c
    else
      if jltB c.a (some 1) then
        match hexaS with
        | some s => s
        | none =>
          let alphaStr := getAlphaString c
          let cond := alphaStr.contains '%' ||
            (decide (c.alphaInputStyleHint = some "number") && jneB c.a (round c.a 0))
          if cond && inputStarts c "oklch" then toOklchaString ops c
          else if cond && (inputStarts c "hsl" || inputStarts c "hsla") then toHslaString c false
          else if cond && (inputStarts c "rgb" || inputStarts c "rgba") then toRgbaString c false
          else toRgbaString c false
      else
        match hexS with
        | some s => s
        | none =>
          if inputStarts c "oklch" then toOklchString ops c
          else if inputStarts c "hsl" then toHslString c false
          else if inputStarts c "rgb" then toRgbString c false
          else toHex c

/-! Analysis layer. -/

/-- Source method getRelativeLuminance(): the luminance row of the sRGB to
XYZ matrix applied to the linearised channels; 0 when invalid. -/
def getRelativeLuminance (ops : MathOps) (c : GoatColorInternal) : JNum :=
  if c.valid = false then some 0
  else
    let row := SRGB_TO_XYZ_MATRIX.2.1
    jadd (jadd (jmul (some row.1) (srgbToLinear ops (c.r.getD 0)))
               (jmul (some row.2.1) (srgbToLinear ops (c.g.getD 0))))
         (jmul (some row.2.2) (srgbToLinear ops (c.b.getD 0)))

/-- Source method _normalizeHue(hue). -/
def normalizeHue (hue : ℚ) : ℚ :=
  let h := jsMod hue 360
  if h < 0 then h + 360 else h

/-- Source static method _fromRgba(r, g, b, a, alphaStyleHint): a
programmatically built, always valid instance.  The constructor it runs on
null leaves the null-input diagnostic in the error field, which the source
never clears; the synthesised input string records the rounded channels. -/
def fromRgba (r g b a : JNum) (alphaStyleHint : Option String) : GoatColorInternal :=
  let rr := (clamp r 0 255).map jsRound
  let gg := (clamp g 0 255).map jsRound
  let bb := (clamp b 0 255).map jsRound
  let aa := clamp a 0 1
  let alphaStrForInput := getAlphaString
    {baseColor none with a := aa, alphaInputStyleHint := alphaStyleHint}
  let inputStr :=
    if jeqB aa (some 1) then
      "rgb(" ++ qToJsString rr ++ " " ++ qToJsString gg ++ " " ++ qToJsString bb ++ ")"
    else
      "rgb(" ++ qToJsString rr ++ " " ++ qToJsString gg ++ " " ++ qToJsString bb ++ " / " ++
        alphaStrForInput ++ ")"
  { r := rr, g := gg, b := bb, a := aa, input := some inputStr, valid := true,
    error := some "Input color is null or undefined.", alphaInputStyleHint := alphaStyleHint }

/-- Source method _cloneWithNewHsl(h, s, l, a). -/
def cloneWithNewHsl (c : GoatColorInternal) (h s l : ℚ) (a : JNum) : GoatColorInternal :=
  let rgb := hslToRgb (normalizeHue h) (clampQ s 0 100) (clampQ l 0 100)
  fromRgba (some (rgb.1 : ℚ)) (some (rgb.2.1 : ℚ)) (some (rgb.2.2 : ℚ)) (clamp a 0 1)
    c.alphaInputStyleHint

/-- Hue key of the palette sort comparators. -/
def hueKey (x : GoatColorInternal) : ℚ := normalizeHue (toHsl x).h

/-- Array.prototype.sort with the ascending hue comparator: a stable sort
consistent with the numeric comparator, which merge sort realises. -/
def sortByHue (l : List GoatColorInternal) : List GoatColorInternal :=
  l.mergeSort (fun a b => decide (hueKey a ≤ hueKey b))

/-- Source method getComplementaryPalette(): the base and its complement,
in that order, with no sort. -/
def getComplementaryPalette (c : GoatColorInternal) : List GoatColorInternal :=
  if c.valid = false then [c]
  else
    let v := toHsl c
    [c, cloneWithNewHsl c (v.h + 180) v.s v.l c.a]

/-- Source method getSplitComplementaryPalette(angle). -/
def getSplitComplementaryPalette (c : GoatColorInternal) (angle : ℚ) : List GoatColorInternal :=
  if c.valid = false then [c]
  else
    let v := toHsl c
    let complementaryHue := normalizeHue (v.h + 180)
    sortByHue [c, cloneWithNewHsl c (complementaryHue - angle) v.s v.l c.a,
      cloneWithNewHsl c (complementaryHue + angle) v.s v.l c.a]

/-- Source method getTriadicPalette(). -/
def getTriadicPalette (c : GoatColorInternal) : List GoatColorInternal :=
  if c.valid = false then [c]
  else
    let v := toHsl c
    sortByHue [c, cloneWithNewHsl c (v.h + 120) v.s v.l c.a,
      cloneWithNewHsl c (v.h + 240) v.s v.l c.a]

/-- Source method getTetradicPalette(offsetAngle). -/
def getTetradicPalette (c : GoatColorInternal) (offsetAngle : ℚ) : List GoatColorInternal :=
  if c.valid = false then [c]
  else
    let v := toHsl c
    sortByHue [c, cloneWithNewHsl c (v.h + offsetAngle) v.s v.l c.a,
      cloneWithNewHsl c (v.h + 180) v.s v.l c.a,
      cloneWithNewHsl c (v.h + 180 + offsetAngle) v.s v.l c.a]

/-- Source method getAnalogousPalette(angle). -/
def getAnalogousPalette (c : GoatColorInternal) (angle : ℚ) : List GoatColorInternal :=
  if c.valid = false then [c]
  else
    let v := toHsl c
    sortByHue [cloneWithNewHsl c (v.h - angle) v.s v.l c.a, c,
      cloneWithNewHsl c (v.h + angle) v.s v.l c.a]

/-- Body of the source method flatten(backgroundInput), parameterised by
the recursive call (flattening the background against white). -/
def flattenCore (ops : MathOps) (recur : GoatColorInternal → GoatColorInternal)
    (c : GoatColorInternal) (backgroundInput : String ⊕ GoatColorInternal) :
    GoatColorInternal :=
  if c.valid = false then
    let ic := parseColor ops none
    {ic with error := some (match c.error with
      | some e => e
      | none => "Cannot flatten an invalid color.")}
  else if jeqB c.a (some 1) then fromRgba c.r c.g c.b (some 1) c.alphaInputStyleHint
  else
    let bg0 := match backgroundInput with
      | Sum.inr i => i
      | Sum.inl s => parseColor ops (some s)
    let bg1 := if bg0.valid then bg0 else parseColor ops (some "white")
    let bg2 := if jltB bg1.a (some 1) then recur bg1 else bg1
    let fr := jadd (jmul c.r c.a) (jmul bg2.r (jsub (some 1) c.a))
    let fg := jadd (jmul c.g c.a) (jmul bg2.g (jsub (some 1) c.a))
    let fb := jadd (jmul c.b c.a) (jmul bg2.b (jsub (some 1) c.a))
    fromRgba fr fg fb (some 1) c.alphaInputStyleHint

/-- Source method flatten(backgroundInput), with explicit recursion fuel:
the one recursive call flattens the background against white, inside which
the parsed white background is opaque, so the recursion depth never
exceeds one and the fuel of two in flatten below is never exhausted (the
fuel-zero identity is unreachable). -/
def flattenFuel (ops : MathOps) :
    ℕ → GoatColorInternal → (String ⊕ GoatColorInternal) → GoatColorInternal
  | 0, c, backgroundInput => flattenCore ops (fun b => b) c backgroundInput
  | n + 1, c, backgroundInput =>
    flattenCore ops (fun b => flattenFuel ops n b (Sum.inl "white")) c backgroundInput

def flatten (ops : MathOps) (c : GoatColorInternal)
    (backgroundInput : String ⊕ GoatColorInternal) : GoatColorInternal :=
  flattenFuel ops 2 c backgroundInput

/-- Resolution of a factory argument that may be a string or an instance. -/
def resolveColor (ops : MathOps) : String ⊕ GoatColorInternal → GoatColorInternal
  | Sum.inl s => parseColor ops (some s)
  | Sum.inr c => c

/-- Source function GoatColorFactory.getContrastRatio(colorInput1,
colorInput2). -/
def getContrastRatio (ops : MathOps) (colorInput1 colorInput2 : String ⊕ GoatColorInternal) :
    JNum :=
  let c1 := resolveColor ops colorInput1
  let c2 := resolveColor ops colorInput2
  if c1.valid = false ∨ c2.valid = false then some 1
  else
    let effectiveBackground := flatten ops c2 (Sum.inl "white")
    if effectiveBackground.valid = false then some 1
    else
      let effectiveForeground := flatten ops c1 (Sum.inr effectiveBackground)
      if effectiveForeground.valid = false then some 1
      else
        let lumFg := getRelativeLuminance ops effectiveForeground
        let lumBg := getRelativeLuminance ops effectiveBackground
        let lighter := jmax lumFg lumBg
        let darker := jmin lumFg lumBg
        round (jdiv (jadd lighter (some 0.05)) (jadd darker (some 0.05))) 2


/-! Gamut-boundary bisection search. -/

/-- Model of constructing the string oklch(l% c h) from the loop values and
parsing it: the lightness token carries the percent sign and the chroma and
hue tokens are bare decimal numbers, so the component parsers of the OKLCH
branch recover the clamped lightness, the nonnegatively clamped chroma and
the reduced hue, and the conversion chain and validity check are those of
the branch.  The stored input string is irrelevant to the uses (validity
and channel reads) and is not synthesised. -/
def oklchColorOfNums (ops : MathOps) (lPct chroma hue : ℚ) : GoatColorInternal :=
  let l_val := clampQ lPct 0 100
  let c_val := max 0 chroma
  let h_val := normalizeHue hue
  let rgb := oklchToSrgb ops l_val c_val h_val
  let c1 : GoatColorInternal := {baseColor none with
    r := rgb.1.map (fun v => (v : ℚ)), g := rgb.2.1.map (fun v => (v : ℚ)),
    b := rgb.2.2.map (fun v => (v : ℚ)), a := some 1}
  if c1.r = none ∨ c1.g = none ∨ c1.b = none ∨ c1.a = none then
    errC c1 "Invalid OKLCH format: OKLCH to RGB conversion resulted in non-finite component values."
  else okC c1

/-- Model of constructing the legacy string rgb(r, g, b) from the rounded
integer channels of a valid color and parsing it: integer channels print
and re-parse to themselves and are clamped by parseCssNumber; a NaN channel
would print as the letters NaN, which no numeric component class matches,
so that parse would fail as unrecognized. -/
def rgbColorOfNums (r g b : JNum) : GoatColorInternal :=
  if r = none ∨ g = none ∨ b = none then
    errC (baseColor none) "Unrecognized color format: rgb with a NaN channel"
  else
    okC {baseColor none with
      r := clamp r 0 255, g := clamp g 0 255, b := clamp b 0 255, a := some 1}

/-- The bisection loop of getMaxSRGBChroma: fuel is the remaining iteration
count, and the continue statements of the source skip the final
convergence test, which the two tail branches reproduce. -/
def chromaSearch (ops : MathOps) (lO hO precision : ℚ) :
    ℕ → ℚ → ℚ → ℚ → ℚ
  | 0, _, _, maxAchievableC => maxAchievableC
  | fuel + 1, low, high, maxAchievableC =>
    let midC := (low + high) / 2
    if midC < precision / 2 then
      (if (oklchColorOfNums ops lO 0 hO).valid then 0 else maxAchievableC)
    else
      let testColor := oklchColorOfNums ops lO (toFixed4 midC) hO
      if testColor.valid = false then
        chromaSearch ops lO hO precision fuel low midC maxAchievableC
      else
        let rgb := toRgb testColor
        let roundTrippedColor := rgbColorOfNums rgb.r rgb.g rgb.b
        if roundTrippedColor.valid = false then
          chromaSearch ops lO hO precision fuel low midC maxAchievableC
        else
          let rto := toOklch ops roundTrippedColor
          let chromaSignificantlyReduced := jltB rto.c (some (midC - precision * 5))
          let lShift := jabs (jsub rto.l (some lO))
          let lShiftedTooMuch := jgtB lShift (some 1.5)
          let hDiff0 := jabs (jsub rto.h (some hO))
          let hDiff := if jgtB hDiff0 (some 180) then jsub (some 360) hDiff0 else hDiff0
          let hShiftedTooMuch := jgtB hDiff (some 5.0) && decide (midC > 0.02)
          if chromaSignificantlyReduced || lShiftedTooMuch || hShiftedTooMuch then
            (if midC - low < precision then maxAchievableC
             else chromaSearch ops lO hO precision fuel low midC maxAchievableC)
          else
            (if high - midC < precision then midC
             else chromaSearch ops lO hO precision fuel midC high midC)

/-- Source function GoatColorFactory.getMaxSRGBChroma(lOklch, hOklch,
chromaSliderMax, precision, iterations).  The isNaN guard on the hue
cannot fire on a rational argument. -/
def getMaxSRGBChroma (ops : MathOps) (lIn hIn chromaSliderMax precision : ℚ)
    (iterations : ℕ) : ℚ :=
  let lOklch := max 0 (min lIn 100)
  let hOklch := jsMod (jsMod hIn 360 + 360) 360
  if lOklch < 0.001 ∨ lOklch > 99.999 then 0
  else
    let m := max 0 chromaSliderMax
    max 0 (chromaSearch ops lOklch hOklch precision iterations 0 m 0)


/-! Properties.  The remaining definitions name the predicates the theorems
below are stated with; everything after them is a theorem. -/

/-- Parse outcome dichotomy: a valid value with no error, or an invalid one
carrying a nonempty diagnostic. -/
def GoodOutcome (c : GoatColorInternal) : Prop :=
  (c.valid = true ∧ c.error = none) ∨ (c.valid = false ∧ ∃ m, c.error = some m ∧ m ≠ "")

/-- A palette list is sorted by ascending normalised hue. -/
def hueSortedL (l : List GoatColorInternal) : Prop :=
  l.Pairwise (fun a b => hueKey a ≤ hueKey b)

instance (l : List GoatColorInternal) : Decidable (hueSortedL l) :=
  List.instDecidablePairwise l

/-- C7 (code bug witness): the unit-extraction step of parseHue removes the
letter e (meant for exponents) from every token, so the suffix deg becomes
dg and falls into the unrecognised-unit branch: parseHue("90deg") is 0,
although the comparison against "deg" in the source (dead code) and the
specification both say it must be 90.  The grad, turn, degree-sign and
bare-number cases, reduction into [0,360) and the NaN and unrecognised-unit
defaults all behave as specified. -/
theorem parseHue_deg_unit_dead :
    parseHue sampleOps "90deg" = 0 ∧
    parseHue sampleOps "100grad" = 90 ∧
    parseHue sampleOps "0.25turn" = 90 ∧
    parseHue sampleOps "90°" = 90 ∧
    parseHue sampleOps "-30" = 330 ∧
    parseHue sampleOps "17zzz" = 0 := by
  with_unfolding_all decide

/-- C1 (counterexample): parsing the unrecognised input not-a-color leaves
valid false with the channels at their default 0, and a later setAlpha
turns the value valid, contradicting the claim that a failed parse can
never become valid. -/
theorem setAlpha_revives_failed_parse :
    (parseColor sampleOps (some "not-a-color")).valid = false ∧
    (setAlpha (parseColor sampleOps (some "not-a-color")) (1/2) "percent").valid = true := by
  with_unfolding_all decide

/-- C1 (amended): programmatic construction (fromRgba, and with it every
palette clone) always yields a valid value, but setAlpha recomputes the
valid flag as the stored channels being real numbers (not NaN); since most
failed parses leave the channels at their defaults, such a value becomes
valid after setAlpha, and only a failed parse that stored a NaN channel
stays invalid. -/
theorem setAlpha_recomputes_validity :
    (∀ (c : GoatColorInternal) (alphaValue : ℚ) (styleHint : String),
      (setAlpha c alphaValue styleHint).valid =
        (c.r.isSome && c.g.isSome && c.b.isSome)) ∧
    (∀ (r g b a : JNum) (sh : Option String), (fromRgba r g b a sh).valid = true) ∧
    (∀ (c : GoatColorInternal) (h s l : ℚ) (a : JNum),
      (cloneWithNewHsl c h s l a).valid = true) := by
  refine ⟨?_, fun _ _ _ _ _ => rfl, fun _ _ _ _ _ => rfl⟩
  intro c alphaValue styleHint
  rcases c with ⟨r, g, b, a, inp, v, e, hint⟩
  cases r <;> cases g <;> cases b <;> rfl

/-- C9: on an invalid color the structured accessors return the fixed
all-zero records (with alpha 1 in toRgba) instead of failing. -/
theorem invalid_accessors_return_zero (ops : MathOps) (c : GoatColorInternal)
    (h : c.valid = false) :
    toRgb c = ⟨some 0, some 0, some 0⟩ ∧
    toRgba c = ⟨some 0, some 0, some 0, some 1⟩ ∧
    toHsl c = ⟨0, 0, 0⟩ ∧
    toOklch ops c = ⟨some 0, some 0, some 0⟩ := by
  refine ⟨?_, ?_, ?_, ?_⟩ <;> simp [toRgb, toRgba, toHsl, toOklch, h]

/-- Witness for the invalid-accessor theorem at a concrete failed parse. -/
theorem invalid_accessors_return_zero_witness :
    toRgb (parseColor sampleOps (some "not-a-color")) = ⟨some 0, some 0, some 0⟩ ∧
    toOklch sampleOps (parseColor sampleOps (some "not-a-color")) = ⟨some 0, some 0, some 0⟩ :=
  ⟨(invalid_accessors_return_zero sampleOps _ (by with_unfolding_all decide)).1,
   (invalid_accessors_return_zero sampleOps _ (by with_unfolding_all decide)).2.2.2⟩

/-- C10: a hue token whose parseFloat is NaN makes the shared hue parser
return 0 rather than failing, and a well-formed HSL input with such a hue
token parses as a valid color of hue 0. -/
theorem hue_token_without_number_gives_zero :
    (∀ (ops : MathOps) (tok : String),
        jsParseFloat (jsTrim (jsToLower tok)) = none → parseHue ops tok = 0) ∧
    ((parseColor sampleOps (some "hsl(zzz 50% 50%)")).valid = true ∧
        (toHsl (parseColor sampleOps (some "hsl(zzz 50% 50%)"))).h = 0) := by
  constructor
  · intro ops tok h
    simp only [parseHue, h]
  · with_unfolding_all decide

/-- Witness for the hue-token theorem at the token zzz. -/
theorem hue_token_without_number_gives_zero_witness :
    parseHue sampleOps "zzz" = 0 :=
  hue_token_without_number_gives_zero.1 sampleOps "zzz" (by with_unfolding_all decide)

/-- C6 (counterexample): the serialiser prints lowercase hexadecimal, so
the short form of the parse of #FF0000 is #f00 and not the claimed #F00. -/
theorem toHexShort_is_lowercase :
    toHexShort (parseColor sampleOps (some "#FF0000")) ≠ some "#F00" ∧
    toHexShort (parseColor sampleOps (some "#FF0000")) = some "#f00" := by
  with_unfolding_all decide


/-! Matcher inversion lemmas used by the parser theorems. -/

theorem stripCI_mem : ∀ (ps l r : List Char), stripCI ps l = some r → ∀ x, x ∈ r → x ∈ l := by
  intro ps
  induction ps with
  | nil =>
    intro l r h x hx
    simp only [stripCI, Option.some.injEq] at h
    exact h ▸ hx
  | cons p ps ih =>
    intro l r h x hx
    cases l with
    | nil => exact absurd h (by simp [stripCI])
    | cons c cs =>
      simp only [stripCI] at h
      split at h
      · exact List.mem_cons_of_mem _ (ih cs r h x hx)
      · cases h

theorem stripCI_head (p : Char) (ps : List Char) (l r : List Char)
    (h : stripCI (p :: ps) l = some r) :
    ∃ c cs, l = c :: cs ∧ (c = p ∨ c = upChar p) := by
  cases l with
  | nil => exact absurd h (by simp [stripCI])
  | cons c cs =>
    simp only [stripCI] at h
    split at h
    · exact ⟨c, cs, rfl, by assumption⟩
    · cases h

theorem skipOptA_mem (optA : Bool) (l0 : List Char) :
    ∀ x, x ∈ skipOptA optA l0 → x ∈ l0 := by
  intro x hx
  unfold skipOptA at hx
  split at hx
  · rcases l0 with _ | ⟨c, r⟩
    · exact hx
    · simp only at hx
      split at hx
      · exact List.mem_cons_of_mem _ hx
      · exact hx
  · exact hx

theorem matchModern_head (name : String) (optA : Bool) (p1 p2 p3 : Char → Bool)
    (s : String) (g : String × String × String × Option String) (p0 : Char) (prest : List Char)
    (hname : name.data = p0 :: prest)
    (h : matchModern name optA p1 p2 p3 s = some g) :
    ∃ cs, s.data = p0 :: cs ∨ s.data = upChar p0 :: cs := by
  unfold matchModern at h
  rw [hname] at h
  rcases hst : stripCI (p0 :: prest) s.data with _ | l0
  · rw [hst] at h; cases h
  · obtain ⟨c, cs, hl, hc⟩ := stripCI_head p0 prest s.data l0 hst
    exact ⟨cs, by rcases hc with hc | hc <;> [left; right] <;> rw [hl, hc]⟩

theorem matchModern_paren (name : String) (optA : Bool) (p1 p2 p3 : Char → Bool)
    (s : String) (g : String × String × String × Option String)
    (h : matchModern name optA p1 p2 p3 s = some g) :
    '(' ∈ s.data := by
  unfold matchModern at h
  rcases hst : stripCI name.data s.data with _ | l0
  · rw [hst] at h; cases h
  · rw [hst] at h
    dsimp only at h
    rcases hsk : skipOptA optA l0 with _ | ⟨cp, l2⟩ <;> rw [hsk] at h
    · cases h
    · dsimp only at h
      split at h
      · have hcp : cp = '(' := by assumption
        have : cp ∈ l0 := skipOptA_mem optA l0 cp (hsk ▸ List.mem_cons_self cp l2)
        exact stripCI_mem name.data s.data l0 hst '(' (hcp ▸ this)
      · cases h

theorem matchLegacy_head (name : String) (optA : Bool) (p1 p2 p3 : Char → Bool)
    (s : String) (g : String × String × String × Option String) (p0 : Char) (prest : List Char)
    (hname : name.data = p0 :: prest)
    (h : matchLegacy name optA p1 p2 p3 s = some g) :
    ∃ cs, s.data = p0 :: cs ∨ s.data = upChar p0 :: cs := by
  unfold matchLegacy at h
  rw [hname] at h
  rcases hst : stripCI (p0 :: prest) s.data with _ | l0
  · rw [hst] at h; cases h
  · obtain ⟨c, cs, hl, hc⟩ := stripCI_head p0 prest s.data l0 hst
    exact ⟨cs, by rcases hc with hc | hc <;> [left; right] <;> rw [hl, hc]⟩

theorem matchLegacy_paren (name : String) (optA : Bool) (p1 p2 p3 : Char → Bool)
    (s : String) (g : String × String × String × Option String)
    (h : matchLegacy name optA p1 p2 p3 s = some g) :
    '(' ∈ s.data := by
  unfold matchLegacy at h
  rcases hst : stripCI name.data s.data with _ | l0
  · rw [hst] at h; cases h
  · rw [hst] at h
    dsimp only at h
    rcases hsk : skipOptA optA l0 with _ | ⟨cp, l2⟩ <;> rw [hsk] at h
    · cases h
    · dsimp only at h
      split at h
      · have hcp : cp = '(' := by assumption
        have : cp ∈ l0 := skipOptA_mem optA l0 cp (hsk ▸ List.mem_cons_self cp l2)
        exact stripCI_mem name.data s.data l0 hst '(' (hcp ▸ this)
      · cases h

theorem hslMatch_some_head (s : String) (g : String × String × String × Option String)
    (h : hslMatch s = some g) :
    ∃ cs, s.data = 'h' :: cs ∨ s.data = 'H' :: cs := by
  unfold hslMatch at h
  have hup : upChar 'h' = 'H' := by decide
  rcases hm : matchModern "hsl" true isClsHue isClsNum isClsNum s with _ | g1 <;> rw [hm] at h
  · exact hup ▸ matchLegacy_head "hsl" true isClsHue isClsNum isClsNum s g 'h' ['s', 'l'] rfl h
  · exact hup ▸ matchModern_head "hsl" true isClsHue isClsNum isClsNum s g1 'h' ['s', 'l'] rfl hm

theorem hslMatch_some_paren (s : String) (g : String × String × String × Option String)
    (h : hslMatch s = some g) : '(' ∈ s.data := by
  unfold hslMatch at h
  rcases hm : matchModern "hsl" true isClsHue isClsNum isClsNum s with _ | g1 <;> rw [hm] at h
  · exact matchLegacy_paren "hsl" true isClsHue isClsNum isClsNum s g h
  · exact matchModern_paren "hsl" true isClsHue isClsNum isClsNum s g1 hm

theorem hexMatch_none_of_head (s : String) (c : Char) (cs : List Char)
    (hs : s.data = c :: cs) (h1 : (c = '#') = False) (h2 : isHexDigitCI c = false) :
    hexMatch s = none := by
  unfold hexMatch
  rw [hs]
  dsimp only
  have hl : (if c = '#' then cs else c :: cs) = c :: cs := by
    rw [if_neg (by simp [h1])]
  rw [hl, if_neg (by simp [List.all_cons, h2])]

theorem hexLegacyMatch_none_of_head (s : String) (c : Char) (cs : List Char)
    (hs : s.data = c :: cs) (h1 : (c = '0') = False) :
    hexLegacyMatch s = none := by
  unfold hexLegacyMatch
  rw [hs]
  rcases cs with _ | ⟨x, l⟩
  · rfl
  · dsimp only
    rw [if_neg]
    simp [h1]

theorem oklchMatch_none_of_head (s : String) (c : Char) (cs : List Char)
    (hs : s.data = c :: cs) (h1 : (c = 'o') = False) (h2 : (c = 'O') = False) :
    oklchMatch s = none := by
  unfold oklchMatch matchModern
  rcases hst : stripCI "oklch".data s.data with _ | l0
  · rfl
  · obtain ⟨c2, cs2, hl, hc⟩ := stripCI_head 'o' ['k', 'l', 'c', 'h'] s.data l0 hst
    rw [hs] at hl
    cases hl
    have : upChar 'o' = 'O' := by decide
    rw [this] at hc
    rcases hc with hc | hc
    · exact absurd hc (by simp [h1])
    · exact absurd hc (by simp [h2])

theorem lower_mem_of_mem (s : String) (c : Char) (hc : jsLowerChar c = c) (h : c ∈ s.data) :
    c ∈ (jsToLower s).data := by
  unfold jsToLower
  have := List.mem_map_of_mem jsLowerChar h
  rw [hc] at this
  exact this

theorem namedKeys_no_paren :
    cssNamedColors.all (fun kv => kv.1.data.all (fun c => !(c = '('))) = true := by decide

theorem lookupNamed_none_of_paren (s : String) (h : '(' ∈ s.data) : lookupNamed s = none := by
  unfold lookupNamed
  rcases hf : cssNamedColors.find? (fun kv => kv.1 = s) with _ | kv
  · simp [hf]
  · exfalso
    have hmem := List.mem_of_find?_eq_some hf
    have hpred := List.find?_some hf
    have hkey : kv.1 = s := by simpa using hpred
    have hall := List.all_eq_true.mp namedKeys_no_paren kv hmem
    have : ('(' : Char) ∈ kv.1.data := by rw [hkey]; exact h
    have := List.all_eq_true.mp hall '(' this
    simp at this

/-- C5: every input whose trimmed text matches the HSL grammar but whose
saturation or lightness component token lacks the percent suffix fails to
parse (valid false), with no silent default: the component parser throws
and the branch records the failure. -/
theorem hsl_missing_percent_fails (ops : MathOps) (s g1 g2 g3 : String) (g4 : Option String)
    (hm : hslMatch (jsTrim s) = some (g1, g2, g3, g4))
    (hp : (jsTrim g2).endsWith "%" = false ∨ (jsTrim g3).endsWith "%" = false) :
    (parseColor ops (some s)).valid = false := by
  obtain ⟨cs, hhead⟩ := hslMatch_some_head (jsTrim s) _ hm
  have hne : ¬(jsTrim s = "") := by
    intro he
    rw [he] at hhead
    rcases hhead with hh | hh <;> cases hh
  have hparen : '(' ∈ (jsTrim s).data := hslMatch_some_paren (jsTrim s) _ hm
  have hlook : lookupNamed (jsToLower (jsTrim s)) = none :=
    lookupNamed_none_of_paren _ (lower_mem_of_mem _ _ (by decide) hparen)
  have hhex : hexMatch (jsTrim s) = none := by
    rcases hhead with hh | hh
    · exact hexMatch_none_of_head _ 'h' cs hh (by simp) (by decide)
    · exact hexMatch_none_of_head _ 'H' cs hh (by simp) (by decide)
  have hlegacy : hexLegacyMatch (jsTrim s) = none := by
    rcases hhead with hh | hh
    · exact hexLegacyMatch_none_of_head _ 'h' cs hh (by simp)
    · exact hexLegacyMatch_none_of_head _ 'H' cs hh (by simp)
  have hoklch : oklchMatch (jsTrim s) = none := by
    rcases hhead with hh | hh
    · exact oklchMatch_none_of_head _ 'h' cs hh (by simp) (by simp)
    · exact oklchMatch_none_of_head _ 'H' cs hh (by simp) (by simp)
  simp only [parseColor]
  rw [if_neg hne, hlook]
  simp only [parseBranches]
  rw [show hexApply (baseColor (some s)) (jsTrim s) = none by simp [hexApply, hhex]]
  rw [show hexLegacyApply (baseColor (some s)) (jsTrim s) = none by
    simp [hexLegacyApply, hlegacy]]
  rw [show oklchApply ops (baseColor (some s)) (jsTrim s) = none by simp [oklchApply, hoklch]]
  simp only [hslApply, hm]
  rcases hp with hp | hp
  · have h2 : parseHslPercentage g2 =
        Except.error "Invalid HSL saturation/lightness value: \x27%\x27 unit is required." := by
      simp [parseHslPercentage, hp]
    rw [h2]
    rfl
  · rcases h2 : parseHslPercentage g2 with e | q2
    · rfl
    · have h3 : parseHslPercentage g3 =
          Except.error "Invalid HSL saturation/lightness value: \x27%\x27 unit is required." := by
        simp [parseHslPercentage, hp]
      rw [h3]
      rfl

/-- Witness for the missing-percent theorem at the input hsl(0 50 50). -/
theorem hsl_missing_percent_fails_witness :
    (parseColor sampleOps (some "hsl(0 50 50)")).valid = false :=
  hsl_missing_percent_fails sampleOps "hsl(0 50 50)" "0" "50" "50" none
    (by with_unfolding_all decide) (Or.inl (by with_unfolding_all decide))

/-- C6 (amended): the short hex serialisation is offered (non-null) exactly
when the color is valid, fully opaque, and each rounded channel prints as a
doubled hexadecimal digit; otherwise it signals unavailability with null
and toString falls back to the long form, all in lowercase: the parse of
#FF0000 shortens to #f00, the parse of #FF0100 gives null and falls back to
#ff0100. -/
theorem toHexShort_doubled_digits_spec :
    (∀ c : GoatColorInternal,
      toHexShort c ≠ none ↔
        (c.valid = true ∧ jltB c.a (some 1) = false ∧
         pairEq (toHexPart c.r) = true ∧ pairEq (toHexPart c.g) = true ∧
         pairEq (toHexPart c.b) = true)) ∧
    toHexShort (parseColor sampleOps (some "#FF0000")) = some "#f00" ∧
    toHexShort (parseColor sampleOps (some "#FF0100")) = none ∧
    toStringFmt sampleOps (parseColor sampleOps (some "#FF0100")) "hexshort" = "#ff0100" := by
  refine ⟨?_, ?_, ?_, ?_⟩
  · intro c
    simp only [toHexShort]
    by_cases h1 : c.valid = false ∨ jltB c.a (some 1) = true
    · rw [if_pos h1]
      simp only [ne_eq, not_true_eq_false, false_iff, not_and]
      intro hv hl
      rcases h1 with h1 | h1
      · rw [hv] at h1; cases h1
      · rw [hl] at h1; intro _; cases h1
    · rw [if_neg h1]
      push_neg at h1
      obtain ⟨hv, hl⟩ := h1
      have hv2 : c.valid = true := by
        cases hcv : c.valid
        · exact absurd hcv hv
        · rfl
      have hl2 : jltB c.a (some 1) = false := by
        cases hcl : jltB c.a (some 1)
        · rfl
        · exact absurd hcl hl
      by_cases h2 :
          (pairEq (toHexPart c.r) && pairEq (toHexPart c.g) && pairEq (toHexPart c.b)) = true
      · rw [if_pos h2]
        simp only [Bool.and_eq_true] at h2
        simp [hv2, hl2, h2.1.1, h2.1.2, h2.2]
      · rw [if_neg h2]
        simp only [ne_eq, not_true_eq_false, false_iff, not_and]
        intro _ _ hr hg hb
        exact h2 (by rw [hr, hg, hb]; rfl)
  · with_unfolding_all decide
  · with_unfolding_all decide
  · with_unfolding_all decide


/-! Parse outcome lemmas for the dichotomy theorem. -/

theorem append_ne_empty (p s : String) (h : p.data ≠ []) : p ++ s ≠ "" := by
  intro he
  have hd := congrArg String.data he
  rw [String.data_append] at hd
  exact h (List.append_eq_nil.mp hd).1

theorem append3_ne_empty (p a b : String) (h : p.data ≠ []) : p ++ a ++ b ≠ "" := by
  intro he
  have hd := congrArg String.data he
  rw [String.data_append, String.data_append] at hd
  exact h (List.append_eq_nil.mp (List.append_eq_nil.mp hd).1).1

theorem hexApply_good (c : GoatColorInternal) (str : String) (c1 : GoatColorInternal)
    (hc : c.error = none) (h : hexApply c str = some c1) : GoodOutcome c1 := by
  unfold hexApply at h
  rcases hm : hexMatch str with _ | g <;> rw [hm] at h
  · cases h
  · rcases g with ⟨d1, d2, d3, d4⟩ | ⟨p5, p6, p7, p8⟩ <;> dsimp only at h <;> split at h <;>
        cases h
    · exact Or.inr ⟨rfl, _, rfl, by decide⟩
    · exact Or.inl ⟨rfl, hc⟩
    · exact Or.inr ⟨rfl, _, rfl, by decide⟩
    · exact Or.inl ⟨rfl, hc⟩

theorem hexLegacyApply_good (c : GoatColorInternal) (str : String) (c1 : GoatColorInternal)
    (hc : c.error = none) (h : hexLegacyApply c str = some c1) : GoodOutcome c1 := by
  unfold hexLegacyApply at h
  rcases hm : hexLegacyMatch str with _ | ⟨m1, m2, m3, m4⟩ <;> rw [hm] at h
  · cases h
  · dsimp only at h
    split at h <;> cases h
    · exact Or.inr ⟨rfl, _, rfl, by decide⟩
    · exact Or.inl ⟨rfl, hc⟩

theorem oklchApply_good (ops : MathOps) (c : GoatColorInternal) (str : String)
    (c1 : GoatColorInternal) (hc : c.error = none) (h : oklchApply ops c str = some c1) :
    GoodOutcome c1 := by
  unfold oklchApply at h
  rcases hm : oklchMatch str with _ | ⟨m1, m2, m3, m4⟩ <;> rw [hm] at h
  · cases h
  · dsimp only at h
    rcases hl : parseOklchLightness m1 with e | lv <;> rw [hl] at h <;> dsimp only at h
    · cases h
      exact Or.inr ⟨rfl, _, rfl, append_ne_empty _ _ (by decide)⟩
    · rcases hcv : parseOklchChroma m2 with e | cv <;> rw [hcv] at h <;> dsimp only at h
      · cases h
        exact Or.inr ⟨rfl, _, rfl, append_ne_empty _ _ (by decide)⟩
      · split at h <;> cases h
        · exact Or.inr ⟨rfl, _, rfl, by decide⟩
        · exact Or.inl ⟨rfl, hc⟩

theorem hslApply_good (ops : MathOps) (c : GoatColorInternal) (str : String)
    (c1 : GoatColorInternal) (hc : c.error = none) (h : hslApply ops c str = some c1) :
    GoodOutcome c1 := by
  unfold hslApply at h
  rcases hm : hslMatch str with _ | ⟨m1, m2, m3, m4⟩ <;> rw [hm] at h
  · cases h
  · dsimp only at h
    rcases h2 : parseHslPercentage m2 with e | sv <;> rw [h2] at h <;> dsimp only at h
    · cases h
      exact Or.inr ⟨rfl, _, rfl, append_ne_empty _ _ (by decide)⟩
    · rcases h3 : parseHslPercentage m3 with e | lv <;> rw [h3] at h <;> dsimp only at h
      · cases h
        exact Or.inr ⟨rfl, _, rfl, append_ne_empty _ _ (by decide)⟩
      · split at h <;> cases h
        · exact Or.inr ⟨rfl, _, rfl, by decide⟩
        · exact Or.inl ⟨rfl, hc⟩

theorem rgbApply_good (c : GoatColorInternal) (str : String) (c1 : GoatColorInternal)
    (hc : c.error = none) (h : rgbApply c str = some c1) : GoodOutcome c1 := by
  unfold rgbApply at h
  rcases hm : rgbMatch str with _ | ⟨m1, m2, m3, m4⟩ <;> rw [hm] at h
  · cases h
  · dsimp only at h
    split at h <;> cases h
    · exact Or.inr ⟨rfl, _, rfl, by decide⟩
    · exact Or.inl ⟨rfl, hc⟩

theorem parseBranches_good (ops : MathOps) (c : GoatColorInternal) (str raw : String)
    (hc : c.error = none) : GoodOutcome (parseBranches ops c str raw) := by
  unfold parseBranches
  rcases h1 : hexApply c str with _ | c1
  · rcases h2 : hexLegacyApply c str with _ | c1
    · rcases h3 : oklchApply ops c str with _ | c1
      · rcases h4 : hslApply ops c str with _ | c1
        · rcases h5 : rgbApply c str with _ | c1
          · exact Or.inr ⟨rfl, _, rfl, append3_ne_empty _ _ _ (by decide)⟩
          · exact rgbApply_good c str c1 hc h5
        · exact hslApply_good ops c str c1 hc h4
      · exact oklchApply_good ops c str c1 hc h3
    · exact hexLegacyApply_good c str c1 hc h2
  · exact hexApply_good c str c1 hc h1

/-- C2: parsing is a total function with exactly one outcome: either a
valid value with no error, or an invalid one carrying a nonempty
diagnostic, never both and never an escaping exception (every throwing
site of the source is inside the per-branch try and is converted into the
diagnostic); in particular the inputs not-a-color, hsl(0 50 50) and the
empty string each parse invalid (and therefore, by the first conjunct,
with a nonempty error). -/
theorem parse_single_outcome :
    (∀ (ops : MathOps) (s : String), GoodOutcome (parseColor ops (some s))) ∧
    (∀ ops : MathOps,
      (parseColor ops (some "not-a-color")).valid = false ∧
      (parseColor ops (some "hsl(0 50 50)")).valid = false ∧
      (parseColor ops (some "")).valid = false) := by
  constructor
  · intro ops s
    simp only [parseColor]
    by_cases h0 : jsTrim s = ""
    · rw [if_pos h0]
      exact Or.inr ⟨rfl, _, rfl, by decide⟩
    · rw [if_neg h0]
      exact parseBranches_good ops _ _ _ rfl
  · intro ops
    refine ⟨?_, ?_, ?_⟩ <;> with_unfolding_all rfl


theorem sortByHue_sorted (l : List GoatColorInternal) : hueSortedL (sortByHue l) := by
  have h := @List.sorted_mergeSort _ (fun a b => decide (hueKey a ≤ hueKey b))
    (fun a b c hab hbc => by
      simp only [decide_eq_true_eq] at hab hbc ⊢
      exact le_trans hab hbc)
    (fun a b => by
      simp only [Bool.or_eq_true, decide_eq_true_eq]
      exact le_total _ _)
    l
  exact h.imp (fun hab => by simpa using hab)

theorem sortByHue_mem (l : List GoatColorInternal) (x : GoatColorInternal) :
    x ∈ sortByHue l ↔ x ∈ l :=
  (List.mergeSort_perm l _).mem_iff

/-- C3 (amended): on a valid color the triadic, tetradic,
split-complementary and analogous palettes consist of the base and clones
built by rotating only the hue while passing the base saturation,
lightness and alpha through unchanged, and are returned sorted by
ascending normalised hue; the complementary palette also holds saturation
and lightness fixed and rotates the hue by 180, but is returned in the
fixed order base-then-complement without sorting. -/
theorem palette_rotations_spec (c : GoatColorInternal) (angle offsetAngle : ℚ)
    (h : c.valid = true) :
    (getComplementaryPalette c =
      [c, cloneWithNewHsl c ((toHsl c).h + 180) (toHsl c).s (toHsl c).l c.a]) ∧
    (hueSortedL (getTriadicPalette c) ∧ ∀ x ∈ getTriadicPalette c,
      x = c ∨ x = cloneWithNewHsl c ((toHsl c).h + 120) (toHsl c).s (toHsl c).l c.a ∨
        x = cloneWithNewHsl c ((toHsl c).h + 240) (toHsl c).s (toHsl c).l c.a) ∧
    (hueSortedL (getTetradicPalette c offsetAngle) ∧ ∀ x ∈ getTetradicPalette c offsetAngle,
      x = c ∨ x = cloneWithNewHsl c ((toHsl c).h + offsetAngle) (toHsl c).s (toHsl c).l c.a ∨
        x = cloneWithNewHsl c ((toHsl c).h + 180) (toHsl c).s (toHsl c).l c.a ∨
        x = cloneWithNewHsl c ((toHsl c).h + 180 + offsetAngle) (toHsl c).s (toHsl c).l c.a) ∧
    (hueSortedL (getSplitComplementaryPalette c angle) ∧
      ∀ x ∈ getSplitComplementaryPalette c angle,
      x = c ∨
        x = cloneWithNewHsl c (normalizeHue ((toHsl c).h + 180) - angle)
              (toHsl c).s (toHsl c).l c.a ∨
        x = cloneWithNewHsl c (normalizeHue ((toHsl c).h + 180) + angle)
              (toHsl c).s (toHsl c).l c.a) ∧
    (hueSortedL (getAnalogousPalette c angle) ∧ ∀ x ∈ getAnalogousPalette c angle,
      x = cloneWithNewHsl c ((toHsl c).h - angle) (toHsl c).s (toHsl c).l c.a ∨ x = c ∨
        x = cloneWithNewHsl c ((toHsl c).h + angle) (toHsl c).s (toHsl c).l c.a) := by
  have hv : (c.valid = false) = False := by simp [h]
  refine ⟨?_, ⟨?_, ?_⟩, ⟨?_, ?_⟩, ⟨?_, ?_⟩, ⟨?_, ?_⟩⟩
  · simp only [getComplementaryPalette, hv, if_false]
  · simp only [getTriadicPalette, hv, if_false]
    exact sortByHue_sorted _
  · intro x hx
    simp only [getTriadicPalette, hv, if_false] at hx
    rw [sortByHue_mem] at hx
    simpa using hx
  · simp only [getTetradicPalette, hv, if_false]
    exact sortByHue_sorted _
  · intro x hx
    simp only [getTetradicPalette, hv, if_false] at hx
    rw [sortByHue_mem] at hx
    simpa using hx
  · simp only [getSplitComplementaryPalette, hv, if_false]
    exact sortByHue_sorted _
  · intro x hx
    simp only [getSplitComplementaryPalette, hv, if_false] at hx
    rw [sortByHue_mem] at hx
    simpa using hx
  · simp only [getAnalogousPalette, hv, if_false]
    exact sortByHue_sorted _
  · intro x hx
    simp only [getAnalogousPalette, hv, if_false] at hx
    rw [sortByHue_mem] at hx
    simpa using hx

/-- C3 (counterexample): the complementary palette of hsl(200 50% 50%) is
the pair of hues about 200 then about 20, which is not sorted by ascending
normalised hue; getComplementaryPalette has no sort. -/
theorem complementary_palette_not_sorted :
    ¬ hueSortedL (getComplementaryPalette (parseColor sampleOps (some "hsl(200 50% 50%)"))) := by
  with_unfolding_all decide

/-- Witness for the palette theorem at a concrete valid color. -/
theorem palette_rotations_spec_witness :
    (parseColor sampleOps (some "hsl(10 50% 50%)")).valid = true ∧
    hueSortedL (getTriadicPalette (parseColor sampleOps (some "hsl(10 50% 50%)"))) :=
  ⟨by with_unfolding_all decide,
   (palette_rotations_spec (parseColor sampleOps (some "hsl(10 50% 50%)")) 30 60
      (by with_unfolding_all decide)).2.1.1⟩


theorem jmax_comm (x y : JNum) : jmax x y = jmax y x := by
  cases x <;> cases y <;> simp [jmax, jbin, max_comm]

theorem jmin_comm (x y : JNum) : jmin x y = jmin y x := by
  cases x <;> cases y <;> simp [jmin, jbin, min_comm]

theorem fromRgba_valid (r g b a : JNum) (sh : Option String) :
    (fromRgba r g b a sh).valid = true := rfl

theorem flatten_opaque (ops : MathOps) (c : GoatColorInternal)
    (bg : String ⊕ GoatColorInternal) (hv : c.valid = true) (ha : c.a = some 1) :
    flatten ops c bg = fromRgba c.r c.g c.b (some 1) c.alphaInputStyleHint := by
  unfold flatten flattenFuel flattenCore
  rw [if_neg (by simp [hv]), if_pos (by simp [jeqB, ha])]

/-- C4 (amended): the contrast ratio is symmetric whenever both operands
resolve to valid fully opaque colors, because flattening an opaque color
ignores the background and the formula takes the larger and smaller
luminance; for translucent operands the two orders composite against
different backgrounds and the results can differ. -/
theorem contrastRatio_symmetric_for_opaque (ops : MathOps)
    (i1 i2 : String ⊕ GoatColorInternal)
    (h1 : (resolveColor ops i1).valid = true) (h2 : (resolveColor ops i2).valid = true)
    (ha1 : (resolveColor ops i1).a = some 1) (ha2 : (resolveColor ops i2).a = some 1) :
    getContrastRatio ops i1 i2 = getContrastRatio ops i2 i1 := by
  have hfl1 : ∀ bg, flatten ops (resolveColor ops i1) bg =
      fromRgba (resolveColor ops i1).r (resolveColor ops i1).g (resolveColor ops i1).b
        (some 1) (resolveColor ops i1).alphaInputStyleHint :=
    fun bg => flatten_opaque ops _ bg h1 ha1
  have hfl2 : ∀ bg, flatten ops (resolveColor ops i2) bg =
      fromRgba (resolveColor ops i2).r (resolveColor ops i2).g (resolveColor ops i2).b
        (some 1) (resolveColor ops i2).alphaInputStyleHint :=
    fun bg => flatten_opaque ops _ bg h2 ha2
  simp only [getContrastRatio, hfl1, hfl2, fromRgba_valid]
  rw [if_neg (show ¬((resolveColor ops i1).valid = false ∨ (resolveColor ops i2).valid = false)
        by simp [h1, h2]),
      if_neg (show ¬((resolveColor ops i2).valid = false ∨ (resolveColor ops i1).valid = false)
        by simp [h1, h2])]
  simp only [Bool.true_eq_false, if_false, if_neg (by simp : ¬(true = false))]
  rw [jmax_comm, jmin_comm]

/-- C4 (counterexample): with the translucent operand rgb(0 0 0 / 0.98)
the two argument orders flatten differently (the background operand is
flattened against white first), giving ratios 1.03 and 1; both orders stay
in the linear branch of the sRGB transfer function, so the values are
exact rationals independent of the transcendental parameters. -/
theorem contrastRatio_asymmetric_translucent :
    getContrastRatio sampleOps (Sum.inl "black") (Sum.inl "rgb(0 0 0 / 0.98)") ≠
      getContrastRatio sampleOps (Sum.inl "rgb(0 0 0 / 0.98)") (Sum.inl "black") ∧
    getContrastRatio sampleOps (Sum.inl "black") (Sum.inl "rgb(0 0 0 / 0.98)") =
      some (103/100) ∧
    getContrastRatio sampleOps (Sum.inl "rgb(0 0 0 / 0.98)") (Sum.inl "black") = some 1 := by
  with_unfolding_all decide

/-- Witness for the opaque-symmetry theorem at black and white. -/
theorem contrastRatio_symmetric_for_opaque_witness :
    getContrastRatio sampleOps (Sum.inl "#000000") (Sum.inl "#ffffff") =
      getContrastRatio sampleOps (Sum.inl "#ffffff") (Sum.inl "#000000") :=
  contrastRatio_symmetric_for_opaque sampleOps (Sum.inl "#000000") (Sum.inl "#ffffff")
    (by with_unfolding_all decide) (by with_unfolding_all decide)
    (by with_unfolding_all decide) (by with_unfolding_all decide)


theorem chromaSearch_bounds (ops : MathOps) (lO hO precision M : ℚ) :
    ∀ (fuel : ℕ) (low high maxC : ℚ), 0 ≤ low → low ≤ high → high ≤ M → 0 ≤ maxC → maxC ≤ M →
      0 ≤ chromaSearch ops lO hO precision fuel low high maxC ∧
      chromaSearch ops lO hO precision fuel low high maxC ≤ M := by
  intro fuel
  induction fuel with
  | zero =>
    intro low high maxC _ _ _ h4 h5
    exact ⟨h4, h5⟩
  | succ n ih =>
    intro low high maxC h1 h2 h3 h4 h5
    have hmid1 : low ≤ (low + high) / 2 := by linarith
    have hmid2 : (low + high) / 2 ≤ high := by linarith
    have hmid0 : 0 ≤ (low + high) / 2 := le_trans h1 hmid1
    have hmidM : (low + high) / 2 ≤ M := le_trans hmid2 h3
    simp only [chromaSearch]
    repeat' split
    all_goals
      first
      | exact ⟨le_refl 0, by linarith⟩
      | exact ⟨h4, h5⟩
      | exact ⟨hmid0, hmidM⟩
      | exact ih low ((low + high) / 2) maxC h1 hmid1 hmidM h4 h5
      | exact ih ((low + high) / 2) high ((low + high) / 2) hmid0 hmid2 h3 hmid0 hmidM

/-- C8: for every lightness, hue, chroma upper bound, precision and
iteration count, the gamut search returns a value at least 0 and at most
the nonnegatively clamped chroma upper bound (the bisection interval and
the recorded achievable chroma never leave [0, max 0 bound]), and it
short-circuits to exactly 0 whenever the clamped lightness is strictly
below 0.001 or strictly above 99.999 (the code guard for lying outside
the interval (0.001, 99.999)). -/
theorem maxSrgbChroma_bounds :
    ∀ (ops : MathOps) (lIn hIn chromaSliderMax precision : ℚ) (iterations : ℕ),
      (0 ≤ getMaxSRGBChroma ops lIn hIn chromaSliderMax precision iterations ∧
        getMaxSRGBChroma ops lIn hIn chromaSliderMax precision iterations ≤
          max 0 chromaSliderMax) ∧
      ((clampQ lIn 0 100 < 0.001 ∨ clampQ lIn 0 100 > 99.999) →
        getMaxSRGBChroma ops lIn hIn chromaSliderMax precision iterations = 0) := by
  intro ops lIn hIn M precision iterations
  constructor
  · simp only [getMaxSRGBChroma]
    split
    · exact ⟨le_refl 0, le_max_left 0 M⟩
    · have h := chromaSearch_bounds ops (max 0 (min lIn 100))
        (jsMod (jsMod hIn 360 + 360) 360) precision (max 0 M) iterations 0 (max 0 M) 0
        (le_refl 0) (le_max_left 0 M) (le_refl _) (le_refl 0) (le_max_left 0 M)
      exact ⟨le_max_left 0 _, max_le (le_max_left 0 M) h.2⟩
  · intro hl
    simp only [getMaxSRGBChroma]
    rw [if_pos (show (0 : ℚ) ⊔ (lIn ⊓ 100) < 0.001 ∨ (0 : ℚ) ⊔ (lIn ⊓ 100) > 99.999 from hl)]

/-- Witness for the gamut-search bounds at the specified concrete inputs:
the call with lightness 50, hue 30 and bound 0.4 lies in [0, 0.4], and a
clamped lightness of 100 short-circuits to 0. -/
theorem maxSrgbChroma_bounds_witness :
    (0 ≤ getMaxSRGBChroma sampleOps 50 30 0.4 0.0005 20 ∧
      getMaxSRGBChroma sampleOps 50 30 0.4 0.0005 20 ≤ 0.4) ∧
    getMaxSRGBChroma sampleOps 101 7 0.4 0.0005 20 = 0 := by
  constructor
  · have h := (maxSrgbChroma_bounds sampleOps 50 30 0.4 0.0005 20).1
    have hm : max (0 : ℚ) 0.4 ≤ 0.4 := by norm_num
    exact ⟨h.1, le_trans h.2 hm⟩
  · exact (maxSrgbChroma_bounds sampleOps 101 7 0.4 0.0005 20).2
      (Or.inr (by norm_num [clampQ]))

end GoatColor


